import Mathlib

/-!
# gym-users-app: the two React frontends, as effectful state transformers

The repository holds two single-page frontends:

* `src/Docker/NodeApp/Frontend/src/App.js` (namespace `GymCloud`): the class
  `ApiService` wrapping `fetch`, and the page components `Members` and
  `Workouts`;
* `src/Frontend/App.js` (namespace `GymUsersApp`): the users page, calling
  `fetch` directly.

Embedding.

* JavaScript values are the tree type `JSVal`. Numbers are the integers that
  JavaScript holds exactly and prints in full (up to 2^53 in size); fractional
  and larger numbers are outside the embedding.
* Everything a handler does to the outside world is recorded, in order, in a
  list of `Event`s: calls of `fetch`, `console.error`, `alert`,
  `window.confirm`.
* The network is an arbitrary function `Backend`: given how many calls of
  `fetch` came before, the URL and the init object, it says whether the
  promise of `fetch` rejects or which response it resolves to.
* A React component is its state record; `setX(v)` is a field update. Every
  handler reads state only from the render it was created in, which is the
  state record the handler is applied to.
* A handler is run in isolation and to completion: an `async` call that is not
  awaited (`loadMembers()` at the end of `handleSubmit`) still runs, and what
  it does is part of the result.
* Browser builtins (`JSON.stringify`, `URLSearchParams`, template-literal
  string conversion) are modelled after their standards, on the values of
  `JSVal`.
* What the code builds itself has the type its call sites give it: `options`
  and `params` are plain objects, the form of `Members` is a record of six
  values, the form of `Workouts` is a record of input texts. What comes from
  the network (the parsed body of a response, hence the elements of the lists
  and `editingMember`) is any `JSVal`.
-/

set_option autoImplicit false

/-! ## JavaScript values -/

/-- A JavaScript value: a primitive, an array or a plain object (its own
properties, in insertion order). -/
inductive JSVal where
  | undefined
  | null
  | bool (b : Bool)
  | num (n : Int)
  | str (s : String)
  | arr (items : List JSVal)
  | obj (fields : List (String × JSVal))
  deriving Repr, Inhabited

/-- The own properties of a plain object. -/
abbrev Record := List (String × JSVal)

/-- A thrown value: every exception the modelled code can meet is an `Error`
object (`Error`, `TypeError`, `SyntaxError`), of which the code reads only
`message`. -/
structure JSError where
  name : String
  message : String
  deriving DecidableEq, Repr, Inhabited

namespace JSVal

/-- Truthiness, as tested by `if (v)`, `v || w`, `v && w` and `v ? a : b`. -/
def truthy : JSVal → Bool
  | .undefined => false
  | .null => false
  | .bool b => b
  | .num n => n != 0
  | .str s => s != ""
  | .arr _ => true
  | .obj _ => true

/-- Whether `typeof v === 'string'`. -/
def isString : JSVal → Bool
  | .str _ => true
  | _ => false

/-- The expression `a || b`. -/
def or (a b : JSVal) : JSVal := if a.truthy then a else b

mutual
/-- String conversion of a value that has one, as done by the template
literals that put an id in a path: an id comes from a rendered row, whose
`key` React has already converted to a string. Objects convert with the
default `Object.prototype.toString`; integers print in full, as JavaScript
prints the integers it holds exactly. For the conversion of arbitrary network
data, which can throw, see `toStringOrThrow`. -/
def toJSString : JSVal → String
  | .undefined => "undefined"
  | .null => "null"
  | .bool b => if b then "true" else "false"
  | .num n => toString n
  | .str s => s
  | .arr xs => joinComma xs
  | .obj _ => "[object Object]"
/-- The default `Array.prototype.join`. -/
def joinComma : List JSVal → String
  | [] => ""
  | [h] => toJSElem h
  | h :: t => toJSElem h ++ "," ++ joinComma t
/-- String conversion of one array element inside `join`: `undefined` and
`null` give the empty string. -/
def toJSElem : JSVal → String
  | .undefined => ""
  | .null => ""
  | .bool b => if b then "true" else "false"
  | .num n => toString n
  | .str s => s
  | .arr xs => joinComma xs
  | .obj _ => "[object Object]"
end

/-- The `TypeError` of converting to a string an object that has neither a
callable `toString` nor a `valueOf` that gives a primitive (the wording is the
engine's). -/
def noPrimitiveError : JSError :=
  ⟨"TypeError", "Cannot convert object to primitive value"⟩

mutual
/-- The conversion `ToString(v)` that `new Error(v)` applies to its message,
or the `TypeError` it throws. A plain object converts through the inherited
`Object.prototype.toString` to '[object Object]', unless it has an own
property `toString`: what `response.json()` gives is never callable, the
inherited `valueOf` gives the object back, and the conversion throws. An array
converts through `join`, which converts its elements in turn. -/
def toStringOrThrow : JSVal → Except JSError String
  | .undefined => .ok "undefined"
  | .null => .ok "null"
  | .bool b => .ok (if b then "true" else "false")
  | .num n => .ok (toString n)
  | .str s => .ok s
  | .arr xs => joinOrThrow xs
  | .obj fields =>
    if fields.any (fun p => p.1 == "toString") then .error noPrimitiveError
    else .ok "[object Object]"
/-- The default `Array.prototype.join`, or the first `TypeError` an element
throws. -/
def joinOrThrow : List JSVal → Except JSError String
  | [] => .ok ""
  | [h] => elemOrThrow h
  | h :: t =>
    match elemOrThrow h with
    | .error e => .error e
    | .ok a =>
      match joinOrThrow t with
      | .error e => .error e
      | .ok b => .ok (a ++ "," ++ b)
/-- The conversion of one array element inside `join`: `undefined` and `null`
give the empty string. -/
def elemOrThrow : JSVal → Except JSError String
  | .undefined => .ok ""
  | .null => .ok ""
  | .bool b => .ok (if b then "true" else "false")
  | .num n => .ok (toString n)
  | .str s => .ok s
  | .arr xs => joinOrThrow xs
  | .obj fields =>
    if fields.any (fun p => p.1 == "toString") then .error noPrimitiveError
    else .ok "[object Object]"
end

end JSVal

namespace Record

/-- The value of property `k` of an object with own properties `r`
(`undefined` when absent). -/
def get (r : Record) (k : String) : JSVal :=
  match r.find? (fun p => p.1 == k) with
  | some p => p.2
  | none => .undefined

/-- Assignment `o[k] = v`: an existing property keeps its position, a new one
is added last. -/
def set : Record → String → JSVal → Record
  | [], k, v => [(k, v)]
  | (k', v') :: rest, k, v =>
    if k' == k then (k, v) :: rest else (k', v') :: set rest k v

/-- An object literal that continues with `...src` after the properties
`base`. -/
def spread (base src : Record) : Record :=
  src.foldl (fun acc p => set acc p.1 p.2) base

end Record

namespace JSVal

/-- The message of the `TypeError` for a property read on `undefined` or
`null` (the wording is the engine's). -/
def nullishReadError (v : String) (k : String) : JSError :=
  ⟨"TypeError", "Cannot read properties of " ++ v ++ " (reading '" ++ k ++ "')"⟩

/-- Property read `v.k`: throws on `undefined` and `null`; a primitive or an
array has none of the property names the code reads. -/
def getProp (v : JSVal) (k : String) : Except JSError JSVal :=
  match v with
  | .undefined => .error (nullishReadError "undefined" k)
  | .null => .error (nullishReadError "null" k)
  | .obj fields => .ok (Record.get fields k)
  | _ => .ok .undefined

/-- The own enumerable properties copied by `...v` inside an object literal. -/
def spreadProps : JSVal → Record
  | .obj fields => fields
  | .arr xs => xs.enum.map (fun p => (toString p.1, p.2))
  | .str s => s.data.enum.map (fun p => (toString p.1, JSVal.str (String.singleton p.2)))
  | _ => []

end JSVal

/-! ## `JSON.stringify` -/

namespace JSON

/-- One hexadecimal digit, in lower case. -/
def hexLower (n : Nat) : Char :=
  if n < 10 then Char.ofNat (48 + n) else Char.ofNat (87 + n)

/-- The escape of one character inside a JSON string. -/
def escapeChar (c : Char) : String :=
  if c.toNat = 34 then String.mk [Char.ofNat 92, Char.ofNat 34]
  else if c.toNat = 92 then String.mk [Char.ofNat 92, Char.ofNat 92]
  else if c.toNat = 8 then String.mk [Char.ofNat 92, 'b']
  else if c.toNat = 12 then String.mk [Char.ofNat 92, 'f']
  else if c.toNat = 10 then String.mk [Char.ofNat 92, 'n']
  else if c.toNat = 13 then String.mk [Char.ofNat 92, 'r']
  else if c.toNat = 9 then String.mk [Char.ofNat 92, 't']
  else if c.toNat < 32 then
    String.mk [Char.ofNat 92, 'u', '0', '0', hexLower (c.toNat / 16), hexLower (c.toNat % 16)]
  else String.singleton c

/-- A string as a JSON string literal. -/
def quote (s : String) : String :=
  String.singleton (Char.ofNat 34) ++ String.join (s.data.map escapeChar)
    ++ String.singleton (Char.ofNat 34)

mutual
/-- The text `JSON.stringify` gives for a value, `none` where it returns
`undefined`. -/
def text : JSVal → Option String
  | .undefined => none
  | .null => some "null"
  | .bool b => some (if b then "true" else "false")
  | .num n => some (toString n)
  | .str s => some (quote s)
  | .arr xs => some ("[" ++ String.intercalate "," (elements xs) ++ "]")
  | .obj fields => some ("\x7b" ++ String.intercalate "," (members fields) ++ "\x7d")
/-- The elements of an array: `undefined` is written `null`. -/
def elements : List JSVal → List String
  | [] => []
  | v :: rest => (text v).getD "null" :: elements rest
/-- The members of an object: a property whose value is `undefined` is left
out. -/
def members : List (String × JSVal) → List String
  | [] => []
  | (k, v) :: rest =>
    match text v with
    | some t => (quote k ++ ":" ++ t) :: members rest
    | none => members rest
end

/-- The value of `JSON.stringify(v)`. -/
def stringify (v : JSVal) : JSVal :=
  match text v with
  | some t => .str t
  | none => .undefined

end JSON

/-! ## `URLSearchParams` -/

namespace URLSearchParams

/-- The UTF-8 bytes of a character. -/
def utf8 (c : Char) : List Nat :=
  let n := c.toNat
  if n < 128 then [n]
  else if n < 2048 then [192 + n / 64, 128 + n % 64]
  else if n < 65536 then [224 + n / 4096, 128 + n / 64 % 64, 128 + n % 64]
  else [240 + n / 262144, 128 + n / 4096 % 64, 128 + n / 64 % 64, 128 + n % 64]

/-- One hexadecimal digit, in upper case. -/
def hexUpper (n : Nat) : Char :=
  if n < 10 then Char.ofNat (48 + n) else Char.ofNat (55 + n)

/-- The `application/x-www-form-urlencoded` form of one byte. -/
def encodeByte (b : Nat) : String :=
  if b = 32 then "+"
  else if (48 ≤ b ∧ b ≤ 57) ∨ (65 ≤ b ∧ b ≤ 90) ∨ (97 ≤ b ∧ b ≤ 122)
      ∨ b = 42 ∨ b = 45 ∨ b = 46 ∨ b = 95 then String.singleton (Char.ofNat b)
  else String.mk ['%', hexUpper (b / 16), hexUpper (b % 16)]

/-- The `application/x-www-form-urlencoded` form of a string. -/
def encode (s : String) : String :=
  String.join ((s.data.flatMap utf8).map encodeByte)

/-- The expression `new URLSearchParams(params).toString()` for a plain
object `params`. -/
def toQueryString (params : Record) : String :=
  String.intercalate "&"
    (params.map (fun p => encode p.1 ++ "=" ++ encode p.2.toJSString))

end URLSearchParams

/-! ## The outside world -/

/-- What the code reads of a `Response`: `ok`, `status`, and what the promise
of `response.json()` settles to. -/
structure Response where
  ok : Bool
  status : Nat
  json : Except JSError JSVal

/-- The network: for the number of earlier calls of `fetch`, the URL and the
init object, the rejection or the response of this call. -/
abbrev Backend := Nat → String → JSVal → Except JSError Response

/-- An effect on the outside world. -/
inductive Event where
  | fetch (url : String) (init : JSVal)
  | consoleError (label : String) (error : JSError)
  | alert (text : String)
  | confirm (text : String)
  deriving Repr

/-- The effects of a run, oldest first. -/
abbrev Trace := List Event

namespace Trace

/-- The calls of `fetch` in a trace, as pairs of URL and init object. -/
def fetchCalls : Trace → List (String × JSVal)
  | [] => []
  | .fetch url init :: rest => (url, init) :: fetchCalls rest
  | _ :: rest => fetchCalls rest

/-- The calls of `console.error` in a trace. -/
def consoleErrors : Trace → List (String × JSError)
  | [] => []
  | .consoleError label e :: rest => (label, e) :: consoleErrors rest
  | _ :: rest => consoleErrors rest

/-- The texts of the `alert` dialogs in a trace. -/
def alerts : Trace → List String
  | [] => []
  | .alert text :: rest => text :: alerts rest
  | _ :: rest => alerts rest

end Trace

/-- The HTTP method `fetch` uses for an init object: its `method`, and `GET`
when there is none. -/
def fetchMethod (init : JSVal) : String :=
  match init with
  | .obj fields =>
    (match Record.get fields "method" with
     | .undefined => "GET"
     | m => m.toJSString)
  | _ => "GET"

/-- The `body` of an init object (`undefined` when there is none). -/
def fetchBody (init : JSVal) : JSVal :=
  match init with
  | .obj fields => Record.get fields "body"
  | _ => .undefined

/-- The `headers` of an init object (`undefined` when there is none). -/
def fetchHeaders (init : JSVal) : JSVal :=
  match init with
  | .obj fields => Record.get fields "headers"
  | _ => .undefined

/-! ## `ApiService` (src/Docker/NodeApp/Frontend/src/App.js) -/

namespace GymCloud

/-- The class `ApiService`: its only field is `baseURL`. -/
structure ApiService where
  baseURL : String

/-- What a call of an `async` method gives: the value its promise resolves to
or the error it rejects with, and the trace so far. -/
abbrev Outcome := Except JSError JSVal × Trace

namespace ApiService

/-- The constructor: `process.env.REACT_APP_API_URL || 'https://api.gymcloud.com'`,
for the value of the environment variable when it is set. -/
def new (envUrl : Option String) : ApiService :=
  match envUrl with
  | some u => if u != "" then ⟨u⟩ else ⟨"https://api.gymcloud.com"⟩
  | none => ⟨"https://api.gymcloud.com"⟩

/-- The init object `request` builds from `options`, after the `body` has been
serialised. -/
def requestConfig (options : Record) : Record :=
  let config : Record :=
    Record.spread
      [("headers", .obj (Record.spread [("Content-Type", .str "application/json")]
          (Record.get options "headers").spreadProps))]
      options
  if (Record.get config "body").truthy && !(Record.get config "body").isString then
    Record.set config "body" (JSON.stringify (Record.get config "body"))
  else config

/-- The part of `request` inside `try`, after `fetch` has settled to `r`. -/
def requestTry (r : Except JSError Response) : Except JSError JSVal :=
  match r with
  | .error e => .error e
  | .ok response =>
    match response.json with
    | .error e => .error e
    | .ok data =>
      if !response.ok then
        match data.getProp "error" with
        | .error e => .error e
        | .ok err =>
          match (err.or (.str ("HTTP error! status: " ++ toString response.status))).toStringOrThrow
          with
          | .error e => .error e
          | .ok message => .error ⟨"Error", message⟩
      else .ok data

/-- The method `request(endpoint, options)`. -/
def request (api : ApiService) (net : Backend) (endpoint : String) (options : Record)
    (tr : Trace) : Outcome :=
  let url := api.baseURL ++ endpoint
  let config := requestConfig options
  let earlier := (Trace.fetchCalls tr).length
  let tr := tr ++ [Event.fetch url (.obj config)]
  match requestTry (net earlier url (.obj config)) with
  | .ok data => (.ok data, tr)
  | .error error => (.error error, tr ++ [Event.consoleError "API request failed:" error])

/-- The path of a list method: the resource, then `?` and the query string
when the query string is not empty. -/
def listPath (resource : String) (params : Record) : String :=
  let queryString := URLSearchParams.toQueryString params
  resource ++ (if queryString != "" then "?" ++ queryString else "")

/-- The method `getMembers(params)`. -/
def getMembers (api : ApiService) (net : Backend) (params : Record) (tr : Trace) : Outcome :=
  api.request net (listPath "/members" params) [] tr

/-- The method `getMember(id)`. -/
def getMember (api : ApiService) (net : Backend) (id : JSVal) (tr : Trace) : Outcome :=
  api.request net ("/members/" ++ id.toJSString) [] tr

/-- The method `createMember(memberData)`. -/
def createMember (api : ApiService) (net : Backend) (memberData : JSVal) (tr : Trace) :
    Outcome :=
  api.request net "/members" [("method", .str "POST"), ("body", memberData)] tr

/-- The method `updateMember(id, memberData)`. -/
def updateMember (api : ApiService) (net : Backend) (id : JSVal) (memberData : JSVal)
    (tr : Trace) : Outcome :=
  api.request net ("/members/" ++ id.toJSString)
    [("method", .str "PUT"), ("body", memberData)] tr

/-- The method `deleteMember(id)`. -/
def deleteMember (api : ApiService) (net : Backend) (id : JSVal) (tr : Trace) : Outcome :=
  api.request net ("/members/" ++ id.toJSString) [("method", .str "DELETE")] tr

/-- The method `getWorkouts(params)`. -/
def getWorkouts (api : ApiService) (net : Backend) (params : Record) (tr : Trace) : Outcome :=
  api.request net (listPath "/workouts" params) [] tr

/-- The method `createWorkout(workoutData)`. -/
def createWorkout (api : ApiService) (net : Backend) (workoutData : JSVal) (tr : Trace) :
    Outcome :=
  api.request net "/workouts" [("method", .str "POST"), ("body", workoutData)] tr

/-- The method `getSubscriptions(params)`. -/
def getSubscriptions (api : ApiService) (net : Backend) (params : Record) (tr : Trace) :
    Outcome :=
  api.request net (listPath "/subscriptions" params) [] tr

/-- The method `createSubscription(subscriptionData)`. -/
def createSubscription (api : ApiService) (net : Backend) (subscriptionData : JSVal)
    (tr : Trace) : Outcome :=
  api.request net "/subscriptions" [("method", .str "POST"), ("body", subscriptionData)] tr

end ApiService

/-! ## The page `Members` -/

/-- The state `formData` of `Members`: the six fields of the member form. -/
structure MemberForm where
  firstName : JSVal
  lastName : JSVal
  email : JSVal
  phoneNumber : JSVal
  subscriptionType : JSVal
  emergencyContact : JSVal

/-- The object held in `formData`. -/
def MemberForm.toJS (f : MemberForm) : JSVal :=
  .obj [("firstName", f.firstName), ("lastName", f.lastName), ("email", f.email),
    ("phoneNumber", f.phoneNumber), ("subscriptionType", f.subscriptionType),
    ("emergencyContact", f.emergencyContact)]

/-- The state of the component `Members`. -/
structure MembersState where
  members : JSVal
  loading : Bool
  showForm : Bool
  editingMember : JSVal
  formData : MemberForm

namespace Members

/-- The form `useState` starts with, and `resetForm` sets. -/
def blankForm : MemberForm :=
  { firstName := .str "", lastName := .str "", email := .str "", phoneNumber := .str "",
    subscriptionType := .str "basic",
    emergencyContact := .obj [("name", .str ""), ("phone", .str "")] }

/-- The state at the first render. -/
def initial : MembersState :=
  { members := .arr [], loading := true, showForm := false, editingMember := .null,
    formData := blankForm }

/-- The list `loadMembers` sets in its `catch` ("Mock data for demo"). -/
def mockMembers : JSVal :=
  .arr [
    .obj [("memberId", .str "1"), ("firstName", .str "Marco"), ("lastName", .str "Rossi"),
      ("email", .str "marco.rossi@email.com"), ("phoneNumber", .str "+39 123 456 7890"),
      ("subscriptionType", .str "premium"), ("status", .str "active"),
      ("joinDate", .str "2024-01-15")],
    .obj [("memberId", .str "2"), ("firstName", .str "Giulia"), ("lastName", .str "Bianchi"),
      ("email", .str "giulia.bianchi@email.com"), ("phoneNumber", .str "+39 987 654 3210"),
      ("subscriptionType", .str "basic"), ("status", .str "active"),
      ("joinDate", .str "2024-02-10")]]

/-- The handler `loadMembers`. -/
def loadMembers (api : ApiService) (net : Backend) (s : MembersState) (tr : Trace) :
    MembersState × Trace :=
  -- try
  let s := { s with loading := true }
  let (r, tr) := api.getMembers net [] tr
  let attempt : Except JSError JSVal := r.bind (fun data => data.getProp "members")
  let (s, tr) :=
    match attempt with
    | .ok ms => ({ s with members := ms.or (.arr []) }, tr)
    -- catch
    | .error error =>
      ({ s with members := mockMembers },
        tr ++ [Event.consoleError "Error loading members:" error])
  -- finally
  ({ s with loading := false }, tr)

/-- The handler `resetForm`. -/
def resetForm (s : MembersState) : MembersState :=
  { s with formData := blankForm, editingMember := .null, showForm := false }

/-- The form `startEdit(member)` builds, or the `TypeError` of reading a
property of a `member` that is `null` or `undefined`. -/
def editForm (member : JSVal) : Except JSError MemberForm := do
  let firstName ← member.getProp "firstName"
  let lastName ← member.getProp "lastName"
  let email ← member.getProp "email"
  let phoneNumber ← member.getProp "phoneNumber"
  let subscriptionType ← member.getProp "subscriptionType"
  let emergencyContact ← member.getProp "emergencyContact"
  pure { firstName := firstName, lastName := lastName, email := email,
         phoneNumber := phoneNumber, subscriptionType := subscriptionType,
         emergencyContact := emergencyContact.or (.obj [("name", .str ""), ("phone", .str "")]) }

/-- The handler `startEdit(member)`: the new state, or the error thrown before
any state was set. -/
def startEdit (s : MembersState) (member : JSVal) : Except JSError MembersState :=
  (editForm member).map
    (fun form => { s with formData := form, editingMember := member, showForm := true })

/-- The save request of `handleSubmit`: `updateMember` when `editingMember` is
truthy, `createMember` otherwise. -/
def saveRequest (api : ApiService) (net : Backend) (s : MembersState) (tr : Trace) : Outcome :=
  if s.editingMember.truthy then
    match s.editingMember.getProp "memberId" with
    | .ok memberId => api.updateMember net memberId s.formData.toJS tr
    | .error error => (.error error, tr)
  else
    api.createMember net s.formData.toJS tr

/-- The handler `handleSubmit` (after `e.preventDefault()`). -/
def handleSubmit (api : ApiService) (net : Backend) (s : MembersState) (tr : Trace) :
    MembersState × Trace :=
  match saveRequest api net s tr with
  | (.ok _, tr) => loadMembers api net (resetForm s) tr
  | (.error error, tr) =>
    (s, tr ++ [Event.consoleError "Error saving member:" error,
               Event.alert ("Errore nel salvare il membro: " ++ error.message)])

/-- The handler `deleteMember(memberId)`, for the answer `confirmed` the user
gives to `window.confirm`. -/
def deleteMember (api : ApiService) (net : Backend) (confirmed : Bool) (s : MembersState)
    (memberId : JSVal) (tr : Trace) : MembersState × Trace :=
  let tr := tr ++ [Event.confirm "Sei sicuro di voler eliminare questo membro?"]
  if confirmed then
    match api.deleteMember net memberId tr with
    | (.ok _, tr) => loadMembers api net s tr
    | (.error error, tr) =>
      (s, tr ++ [Event.consoleError "Error deleting member:" error,
                 Event.alert ("Errore nell'eliminare il membro: " ++ error.message)])
  else (s, tr)

end Members

/-! ## The page `Workouts` -/

/-- One row of the exercise list of the workout form; every field is the text
of an input. -/
structure Exercise where
  name : String
  sets : String
  reps : String
  weight : String
  deriving DecidableEq, Repr

/-- The state `formData` of `Workouts`; every field is the text of an input. -/
structure WorkoutForm where
  memberId : String
  date : String
  exercises : List Exercise
  duration : String
  caloriesBurned : String
  notes : String
  deriving DecidableEq, Repr

/-- The object of one exercise. -/
def Exercise.toJS (x : Exercise) : JSVal :=
  .obj [("name", .str x.name), ("sets", .str x.sets), ("reps", .str x.reps),
    ("weight", .str x.weight)]

/-- The object held in `formData`. -/
def WorkoutForm.toJS (f : WorkoutForm) : JSVal :=
  .obj [("memberId", .str f.memberId), ("date", .str f.date),
    ("exercises", .arr (f.exercises.map Exercise.toJS)), ("duration", .str f.duration),
    ("caloriesBurned", .str f.caloriesBurned), ("notes", .str f.notes)]

/-- The state of the component `Workouts`. -/
structure WorkoutsState where
  workouts : JSVal
  members : JSVal
  loading : Bool
  showForm : Bool
  formData : WorkoutForm

namespace Workouts

/-- The form `useState` starts with, and `resetForm` sets; `today` is the
value of `new Date().toISOString().split('T')[0]`. -/
def blankForm (today : String) : WorkoutForm :=
  { memberId := "", date := today,
    exercises := [{ name := "", sets := "", reps := "", weight := "" }],
    duration := "", caloriesBurned := "", notes := "" }

/-- The state at the first render. -/
def initial (today : String) : WorkoutsState :=
  { workouts := .arr [], members := .arr [], loading := true, showForm := false,
    formData := blankForm today }

/-- The list `loadWorkouts` sets in its `catch` ("Mock data"). -/
def mockWorkouts : JSVal :=
  .arr [
    .obj [("workoutId", .str "1"), ("memberId", .str "1"), ("memberName", .str "Marco Rossi"),
      ("date", .str "2024-08-19"),
      ("exercises", .arr [
        .obj [("name", .str "Panca Piana"), ("sets", .str "3"), ("reps", .str "10"),
          ("weight", .str "80kg")],
        .obj [("name", .str "Squat"), ("sets", .str "4"), ("reps", .str "8"),
          ("weight", .str "100kg")]]),
      ("duration", .num 60), ("caloriesBurned", .num 450),
      ("notes", .str "Ottimo allenamento")]]

/-- The handler `loadWorkouts`. -/
def loadWorkouts (api : ApiService) (net : Backend) (s : WorkoutsState) (tr : Trace) :
    WorkoutsState × Trace :=
  -- try
  let s := { s with loading := true }
  let (r, tr) := api.getWorkouts net [] tr
  let attempt : Except JSError JSVal := r.bind (fun data => data.getProp "workouts")
  let (s, tr) :=
    match attempt with
    | .ok ws => ({ s with workouts := ws.or (.arr []) }, tr)
    -- catch
    | .error error =>
      ({ s with workouts := mockWorkouts },
        tr ++ [Event.consoleError "Error loading workouts:" error])
  -- finally
  ({ s with loading := false }, tr)

/-- The handler `loadMembers` of the page `Workouts` (no mock data, `loading`
untouched). -/
def loadMembers (api : ApiService) (net : Backend) (s : WorkoutsState) (tr : Trace) :
    WorkoutsState × Trace :=
  let (r, tr) := api.getMembers net [] tr
  let attempt : Except JSError JSVal := r.bind (fun data => data.getProp "members")
  match attempt with
  | .ok ms => ({ s with members := ms.or (.arr []) }, tr)
  | .error error => (s, tr ++ [Event.consoleError "Error loading members:" error])

/-- The handler `resetForm`. -/
def resetForm (today : String) (s : WorkoutsState) : WorkoutsState :=
  { s with formData := blankForm today, showForm := false }

/-- The handler `handleSubmit` (after `e.preventDefault()`). -/
def handleSubmit (api : ApiService) (net : Backend) (today : String) (s : WorkoutsState)
    (tr : Trace) : WorkoutsState × Trace :=
  match api.createWorkout net s.formData.toJS tr with
  | (.ok _, tr) => loadWorkouts api net (resetForm today s) tr
  | (.error error, tr) =>
    (s, tr ++ [Event.consoleError "Error saving workout:" error,
               Event.alert ("Errore nel salvare l'allenamento: " ++ error.message)])

/-- The method `xs.filter((x, i) => keep x i)` of an array, with the indices
counted from `start`. -/
def filterWithIndex {α : Type} (keep : α → Nat → Bool) : List α → Nat → List α
  | [], _ => []
  | x :: rest, i =>
    if keep x i then x :: filterWithIndex keep rest (i + 1)
    else filterWithIndex keep rest (i + 1)

/-- The handler `addExercise`. -/
def addExercise (s : WorkoutsState) : WorkoutsState :=
  { s with formData :=
      { s.formData with
        exercises := s.formData.exercises ++ [{ name := "", sets := "", reps := "", weight := "" }] } }

/-- The handler `removeExercise(index)`. -/
def removeExercise (s : WorkoutsState) (index : Nat) : WorkoutsState :=
  let newExercises := filterWithIndex (fun _ i => i != index) s.formData.exercises 0
  { s with formData := { s.formData with exercises := newExercises } }

/-- The second argument of `updateExercise` in the four inputs of an exercise
row: 'name', 'sets', 'reps', 'weight'. -/
inductive ExerciseField where
  | name
  | sets
  | reps
  | weight
  deriving DecidableEq, Repr

/-- The property name an `ExerciseField` stands for. -/
def ExerciseField.key : ExerciseField → String
  | .name => "name"
  | .sets => "sets"
  | .reps => "reps"
  | .weight => "weight"

/-- The assignment `exercise[field] = value`. -/
def setExerciseField (x : Exercise) (field : ExerciseField) (value : String) : Exercise :=
  match field with
  | .name => { x with name := value }
  | .sets => { x with sets := value }
  | .reps => { x with reps := value }
  | .weight => { x with weight := value }

/-- The handler `updateExercise(index, field, value)`: the new state, or the
`TypeError` of assigning to a property of `newExercises[index]` when there is
no such element (the wording is the engine's). -/
def updateExercise (s : WorkoutsState) (index : Nat) (field : ExerciseField) (value : String) :
    Except JSError WorkoutsState :=
  let newExercises := s.formData.exercises
  match newExercises.get? index with
  | none =>
    .error ⟨"TypeError",
      "Cannot set properties of undefined (setting '" ++ field.key ++ "')"⟩
  | some x =>
    .ok { s with formData :=
            { s.formData with
              exercises := newExercises.set index (setExerciseField x field value) } }

/-- The five inputs of the workout form outside the exercise rows. -/
inductive FormField where
  | memberId
  | date
  | duration
  | caloriesBurned
  | notes
  deriving DecidableEq, Repr

/-- The `onChange` handlers of the five inputs:
`setFormData(\x7b...formData, [field]: e.target.value\x7d)`. -/
def changeField (s : WorkoutsState) (field : FormField) (value : String) : WorkoutsState :=
  match field with
  | .memberId => { s with formData := { s.formData with memberId := value } }
  | .date => { s with formData := { s.formData with date := value } }
  | .duration => { s with formData := { s.formData with duration := value } }
  | .caloriesBurned => { s with formData := { s.formData with caloriesBurned := value } }
  | .notes => { s with formData := { s.formData with notes := value } }

/-- The handler of the button '+ Nuovo Allenamento': `setShowForm(true)`. -/
def openForm (s : WorkoutsState) : WorkoutsState :=
  { s with showForm := true }

/-- One thing the user can do on the page `Workouts`; `today` is what the clock
gives when the form is reset. -/
inductive Action where
  | openForm
  | changeField (field : FormField) (value : String)
  | addExercise
  | removeExercise (index : Nat)
  | updateExercise (index : Nat) (field : ExerciseField) (value : String)
  | resetForm (today : String)
  | submit (today : String)
  deriving Repr

/-- Whether the page offers an action in a state: an exercise row exists for
each index below the length of the list, and its button 'Rimuovi' is rendered
only when `formData.exercises.length > 1`. -/
def offered (s : WorkoutsState) : Action → Bool
  | .removeExercise index =>
    decide (1 < s.formData.exercises.length) && decide (index < s.formData.exercises.length)
  | .updateExercise index _ _ => decide (index < s.formData.exercises.length)
  | _ => true

/-- The state and trace after one action (a handler that throws sets no
state). -/
def step (api : ApiService) (net : Backend) (st : WorkoutsState × Trace) :
    Action → WorkoutsState × Trace
  | .openForm => (openForm st.1, st.2)
  | .changeField field value => (changeField st.1 field value, st.2)
  | .addExercise => (addExercise st.1, st.2)
  | .removeExercise index => (removeExercise st.1 index, st.2)
  | .updateExercise index field value =>
    (match updateExercise st.1 index field value with
     | .ok s => (s, st.2)
     | .error _ => st)
  | .resetForm today => (resetForm today st.1, st.2)
  | .submit today => handleSubmit api net today st.1 st.2

/-- The state and trace after a sequence of actions, `none` when one of them
is not offered in the state it is tried in. -/
def run (api : ApiService) (net : Backend) :
    WorkoutsState × Trace → List Action → Option (WorkoutsState × Trace)
  | st, [] => some st
  | st, a :: rest => if offered st.1 a then run api net (step api net st a) rest else none

end Workouts

end GymCloud

/-! ## The users page (src/Frontend/App.js) -/

namespace GymUsersApp

/-- The state of the component `GymUsersApp`. -/
structure State where
  users : JSVal
  loading : Bool
  error : String
  creating : Bool

/-- The state at the first render. -/
def initial : State :=
  { users := .arr [], loading := false, error := "", creating := false }

/-- The constant `API_BASE_URL` (the source writes the URL without quotes). -/
def API_BASE_URL : String :=
  "https://nahj9gcdg0.execute-api.us-east-1.amazonaws.com/nuovafase"

/-- The init object of the request of `createRandomUser`. -/
def createInit : JSVal :=
  .obj [("method", .str "POST"), ("headers", .obj [("Content-Type", .str "application/json")])]

/-- The `try` block of `fetchUsers` after `fetch` has settled to `r`: the
value given to `setUsers`, or the error thrown. -/
def fetchUsersTry (r : Except JSError Response) : Except JSError JSVal :=
  match r with
  | .error e => .error e
  | .ok response =>
    if !response.ok then .error ⟨"Error", "Failed to fetch users"⟩
    else response.json

/-- The handler `fetchUsers`. -/
def fetchUsers (net : Backend) (s : State) (tr : Trace) : State × Trace :=
  let s := { s with loading := true }
  let s := { s with error := "" }
  let url := API_BASE_URL ++ "/users"
  let earlier := (Trace.fetchCalls tr).length
  let tr := tr ++ [Event.fetch url .undefined]
  let s :=
    match fetchUsersTry (net earlier url .undefined) with
    | .ok data => { s with users := data }
    -- catch
    | .error err => { s with error := "Errore nel caricamento utenti: " ++ err.message }
  -- finally
  ({ s with loading := false }, tr)

/-- The `try` block of `createRandomUser` after `fetch` has settled to `r`, up
to the call of `fetchUsers`: the parsed body, or the error thrown. -/
def createTry (r : Except JSError Response) : Except JSError JSVal :=
  match r with
  | .error e => .error e
  | .ok response =>
    if !response.ok then .error ⟨"Error", "Failed to create user"⟩
    else response.json

/-- The handler `createRandomUser`. -/
def createRandomUser (net : Backend) (s : State) (tr : Trace) : State × Trace :=
  let s := { s with creating := true }
  let s := { s with error := "" }
  let url := API_BASE_URL ++ "/users"
  let earlier := (Trace.fetchCalls tr).length
  let tr := tr ++ [Event.fetch url createInit]
  let (s, tr) :=
    match createTry (net earlier url createInit) with
    | .ok _ => fetchUsers net s tr
    -- catch
    | .error err => ({ s with error := "Errore nella creazione utente: " ++ err.message }, tr)
  -- finally
  ({ s with creating := false }, tr)

end GymUsersApp

/-! ## Concrete networks and states, for the worked examples -/

namespace Scenario

/-- An `ApiService` built with no `REACT_APP_API_URL`. -/
def api : GymCloud.ApiService := GymCloud.ApiService.new none

/-- No network: every `fetch` rejects. -/
def offline : Backend :=
  fun _ _ _ => .error ⟨"TypeError", "Failed to fetch"⟩

/-- A server that answers every request with 200 and the body
`{"members":[],"workouts":[]}`. -/
def accepting : Backend :=
  fun _ _ _ => .ok { ok := true, status := 200,
                     json := .ok (.obj [("members", .arr []), ("workouts", .arr [])]) }

/-- A server that answers every request with 500 and the body
`{"error":"boom"}`. -/
def refusing : Backend :=
  fun _ _ _ => .ok { ok := false, status := 500, json := .ok (.obj [("error", .str "boom")]) }

/-- A server that answers every request with 200 and the body `null`. -/
def answeringNull : Backend :=
  fun _ _ _ => .ok { ok := true, status := 200, json := .ok .null }

/-- A server that answers every request with 204 and an empty body, which
`response.json()` cannot parse. -/
def noContent : Backend :=
  fun _ _ _ => .ok { ok := true, status := 204,
                     json := .error ⟨"SyntaxError", "Unexpected end of JSON input"⟩ }

/-- A state of the users page that holds one user and shows no error. -/
def oneUser : GymUsersApp.State :=
  { users := .arr [.obj [("userId", .str "u1"), ("firstName", .str "Anna")]],
    loading := false, error := "", creating := false }

/-- The first member of the mock list (Marco Rossi). -/
def marco : JSVal :=
  .obj [("memberId", .str "1"), ("firstName", .str "Marco"), ("lastName", .str "Rossi"),
    ("email", .str "marco.rossi@email.com"), ("phoneNumber", .str "+39 123 456 7890"),
    ("subscriptionType", .str "premium"), ("status", .str "active"),
    ("joinDate", .str "2024-01-15")]

/-- The state of `Members` after `startEdit` on Marco Rossi from the initial
state. -/
def editingMarco : GymCloud.MembersState :=
  match GymCloud.Members.startEdit GymCloud.Members.initial marco with
  | .ok s => s
  | .error _ => GymCloud.Members.initial

/-- A server that answers every request with 200 and a body that lists Marco
Rossi under `members` and nothing under `workouts`. -/
def listing : Backend :=
  fun _ _ _ => .ok { ok := true, status := 200,
                     json := .ok (.obj [("members", .arr [marco]), ("workouts", .null)]) }

/-- A server that answers every request with 500 and the body `null`. -/
def refusingNull : Backend :=
  fun _ _ _ => .ok { ok := false, status := 500, json := .ok .null }

/-- A server that answers every request with 422 and the body
`\x7b"error":42\x7d`. -/
def refusingCode : Backend :=
  fun _ _ _ => .ok { ok := false, status := 422, json := .ok (.obj [("error", .num 42)]) }

/-- A server that answers every request with 404 and the body `\x7b\x7d`. -/
def refusingBare : Backend :=
  fun _ _ _ => .ok { ok := false, status := 404, json := .ok (.obj []) }

/-- Options that carry an `Authorization` header. -/
def authorised : Record :=
  [("method", .str "GET"), ("headers", .obj [("Authorization", .str "Bearer t")])]

/-- A workout form state with two exercise rows. -/
def twoRows : GymCloud.WorkoutsState :=
  { GymCloud.Workouts.initial "2024-08-19" with
    loading := false, showForm := true,
    formData :=
      { memberId := "1", date := "2024-08-19",
        exercises := [{ name := "Squat", sets := "4", reps := "8", weight := "100kg" },
                      { name := "Panca Piana", sets := "3", reps := "10", weight := "80kg" }],
        duration := "60", caloriesBurned := "450", notes := "" } }

/-- A server that answers every request with 400 and the body
`\x7b"error":\x7b"toString":1\x7d\x7d`. -/
def refusingOpaque : Backend :=
  fun _ _ _ => .ok { ok := false, status := 400,
                     json := .ok (.obj [("error", .obj [("toString", .num 1)])]) }

/-- The state of `Members` after `startEdit` on a list element that is the
number 0. -/
def editingZero : GymCloud.MembersState :=
  match GymCloud.Members.startEdit GymCloud.Members.initial (.num 0) with
  | .ok s => s
  | .error _ => GymCloud.Members.initial

end Scenario

/-! ## Traces: projections of a concatenation -/

namespace Trace

theorem fetchCalls_append (a b : Trace) :
    fetchCalls (a ++ b) = fetchCalls a ++ fetchCalls b := by
  induction a with
  | nil => rfl
  | cons ev rest ih => cases ev <;> simp [fetchCalls, ih]

theorem consoleErrors_append (a b : Trace) :
    consoleErrors (a ++ b) = consoleErrors a ++ consoleErrors b := by
  induction a with
  | nil => rfl
  | cons ev rest ih => cases ev <;> simp [consoleErrors, ih]

theorem alerts_append (a b : Trace) : alerts (a ++ b) = alerts a ++ alerts b := by
  induction a with
  | nil => rfl
  | cons ev rest ih => cases ev <;> simp [alerts, ih]

end Trace

/-! ## `ApiService.request`: what one call does -/

namespace GymCloud

namespace ApiService

/-- The two ways a call of `request` ends, by what the `try` block gives. -/
theorem request_eq (api : ApiService) (net : Backend) (endpoint : String) (options : Record)
    (tr : Trace) :
    api.request net endpoint options tr =
      match requestTry (net (Trace.fetchCalls tr).length (api.baseURL ++ endpoint)
          (.obj (requestConfig options))) with
      | .ok data =>
        (.ok data, tr ++ [Event.fetch (api.baseURL ++ endpoint) (.obj (requestConfig options))])
      | .error error =>
        (.error error,
          tr ++ [Event.fetch (api.baseURL ++ endpoint) (.obj (requestConfig options)),
                 Event.consoleError "API request failed:" error]) := by
  cases h : requestTry (net (Trace.fetchCalls tr).length (api.baseURL ++ endpoint)
    (.obj (requestConfig options))) <;> simp [request, h]

/-- A call of `request` adds exactly one call of `fetch` to the trace. -/
theorem request_fetchCalls (api : ApiService) (net : Backend) (endpoint : String)
    (options : Record) (tr : Trace) :
    Trace.fetchCalls (api.request net endpoint options tr).2 =
      Trace.fetchCalls tr ++ [(api.baseURL ++ endpoint, .obj (requestConfig options))] := by
  rw [request_eq]
  cases h : requestTry (net (Trace.fetchCalls tr).length (api.baseURL ++ endpoint)
    (.obj (requestConfig options))) <;>
    simp [Trace.fetchCalls_append, Trace.fetchCalls]

/-- A call of `request` shows no alert. -/
theorem request_alerts (api : ApiService) (net : Backend) (endpoint : String)
    (options : Record) (tr : Trace) :
    Trace.alerts (api.request net endpoint options tr).2 = Trace.alerts tr := by
  rw [request_eq]
  cases h : requestTry (net (Trace.fetchCalls tr).length (api.baseURL ++ endpoint)
    (.obj (requestConfig options))) <;>
    simp [Trace.alerts_append, Trace.alerts]

/-- What the `try` block gives for a response that is not ok and whose body
parses to a value `data` with a readable `error`. -/
theorem requestTry_refused (status : Nat) (data err : JSVal)
    (hp : data.getProp "error" = .ok err) :
    requestTry (.ok { ok := false, status := status, json := .ok data }) =
      if err.truthy then
        match err.toStringOrThrow with
        | .ok message => .error ⟨"Error", message⟩
        | .error e => .error e
      else .error ⟨"Error", "HTTP error! status: " ++ toString status⟩ := by
  cases ht : err.truthy with
  | false => simp [requestTry, hp, JSVal.or, ht, JSVal.toStringOrThrow]
  | true =>
    cases hc : err.toStringOrThrow <;> simp [requestTry, hp, JSVal.or, ht, hc]

end ApiService

end GymCloud

/-! ## Helper facts about the handlers -/

namespace JSVal

/-- A property read on a truthy value does not throw. -/
theorem getProp_of_truthy (v : JSVal) (k : String) (h : v.truthy = true) :
    ∃ x, v.getProp k = .ok x := by
  cases v <;> simp [truthy] at h <;> simp [getProp]

end JSVal

namespace GymCloud

namespace Members

/-- The save request adds exactly one call of `fetch`. -/
theorem saveRequest_fetchCalls_length (api : ApiService) (net : Backend) (s : MembersState)
    (tr : Trace) :
    (Trace.fetchCalls (saveRequest api net s tr).2).length =
      (Trace.fetchCalls tr).length + 1 := by
  unfold saveRequest
  cases ht : s.editingMember.truthy with
  | false => simp [ApiService.createMember, ApiService.request_fetchCalls]
  | true =>
    obtain ⟨x, hx⟩ := JSVal.getProp_of_truthy s.editingMember "memberId" ht
    simp [hx, ApiService.updateMember, ApiService.request_fetchCalls]

/-- The save request shows no alert. -/
theorem saveRequest_alerts (api : ApiService) (net : Backend) (s : MembersState)
    (tr : Trace) :
    Trace.alerts (saveRequest api net s tr).2 = Trace.alerts tr := by
  unfold saveRequest
  cases ht : s.editingMember.truthy with
  | false => simp [ApiService.createMember, ApiService.request_alerts]
  | true =>
    obtain ⟨x, hx⟩ := JSVal.getProp_of_truthy s.editingMember "memberId" ht
    simp [hx, ApiService.updateMember, ApiService.request_alerts]

/-- A run of `loadMembers` adds exactly one call of `fetch`: `GET /members`. -/
theorem loadMembers_fetchCalls (api : ApiService) (net : Backend) (s : MembersState)
    (tr : Trace) :
    Trace.fetchCalls (loadMembers api net s tr).2 =
      Trace.fetchCalls tr ++
        [(api.baseURL ++ "/members", JSVal.obj (ApiService.requestConfig []))] := by
  have h := ApiService.request_fetchCalls api net "/members" [] tr
  have hp : ApiService.listPath "/members" [] = "/members" := by decide
  unfold loadMembers ApiService.getMembers
  rw [hp]
  rcases hr : api.request net "/members" [] tr with ⟨r, tr1⟩
  rw [hr] at h
  cases r with
  | error e => simpa [Except.bind, Trace.fetchCalls_append, Trace.fetchCalls] using h
  | ok data =>
    cases hd : data.getProp "members" <;>
      simpa [Except.bind, hd, Trace.fetchCalls_append, Trace.fetchCalls] using h

end Members

namespace Workouts

/-- A run of `loadWorkouts` adds exactly one call of `fetch`: `GET /workouts`. -/
theorem loadWorkouts_fetchCalls (api : ApiService) (net : Backend) (s : WorkoutsState)
    (tr : Trace) :
    Trace.fetchCalls (loadWorkouts api net s tr).2 =
      Trace.fetchCalls tr ++
        [(api.baseURL ++ "/workouts", JSVal.obj (ApiService.requestConfig []))] := by
  have h := ApiService.request_fetchCalls api net "/workouts" [] tr
  have hp : ApiService.listPath "/workouts" [] = "/workouts" := by decide
  unfold loadWorkouts ApiService.getWorkouts
  rw [hp]
  rcases hr : api.request net "/workouts" [] tr with ⟨r, tr1⟩
  rw [hr] at h
  cases r with
  | error e => simpa [Except.bind, Trace.fetchCalls_append, Trace.fetchCalls] using h
  | ok data =>
    cases hd : data.getProp "workouts" <;>
      simpa [Except.bind, hd, Trace.fetchCalls_append, Trace.fetchCalls] using h

end Workouts

end GymCloud

namespace GymUsersApp

/-- A run of `fetchUsers` adds exactly one call of `fetch`: `GET /users`. -/
theorem fetchUsers_fetchCalls (net : Backend) (s : State) (tr : Trace) :
    Trace.fetchCalls (fetchUsers net s tr).2 =
      Trace.fetchCalls tr ++ [(API_BASE_URL ++ "/users", JSVal.undefined)] := by
  simp [fetchUsers, Trace.fetchCalls_append, Trace.fetchCalls]

end GymUsersApp

/-! ## Helper facts about query strings and init objects -/

namespace URLSearchParams

theorem intercalate_go_length (sep : String) (l : List String) (acc : String) :
    acc.length ≤ (String.intercalate.go acc sep l).length := by
  induction l generalizing acc with
  | nil => simp [String.intercalate.go]
  | cons a rest ih =>
    have h := ih (acc ++ sep ++ a)
    simp only [String.intercalate.go]
    simp only [String.length_append] at h
    omega

/-- The query string of a non-empty parameter object is not empty. -/
theorem toQueryString_cons_ne_empty (p : String × JSVal) (ps : Record) :
    toQueryString (p :: ps) ≠ "" := by
  intro h
  have hl := intercalate_go_length "&" (ps.map (fun p => encode p.1 ++ "=" ++ encode p.2.toJSString))
    (encode p.1 ++ "=" ++ encode p.2.toJSString)
  have h0 : (toQueryString (p :: ps)).length = 0 := by rw [h]; rfl
  simp only [toQueryString, List.map, String.intercalate] at h0
  rw [h0] at hl
  have h1 : ("=" : String).length = 1 := rfl
  simp only [String.length_append, h1] at hl
  omega

end URLSearchParams

namespace GymCloud

namespace ApiService

/-- The path of a list method is the resource alone for an empty parameter
object, and the resource, `?` and the query string otherwise. -/
theorem listPath_eq (resource : String) (params : Record) :
    listPath resource params =
      if params.isEmpty then resource
      else resource ++ "?" ++ URLSearchParams.toQueryString params := by
  cases params with
  | nil => simp [listPath, URLSearchParams.toQueryString, String.intercalate]
  | cons p ps =>
    have h := URLSearchParams.toQueryString_cons_ne_empty p ps
    simp [listPath, h, String.append_assoc]

end ApiService

end GymCloud

namespace GymCloud

namespace ApiService

/-- The init object for options that are empty. -/
theorem requestConfig_nil :
    requestConfig [] = [("headers", .obj [("Content-Type", .str "application/json")])] := by
  rfl

/-- The init object for options that give only a method. -/
theorem requestConfig_method (m : String) :
    requestConfig [("method", .str m)] =
      [("headers", .obj [("Content-Type", .str "application/json")]), ("method", .str m)] := by
  rfl

/-- The init object for options that give a method and a body: the body is
serialised when it is truthy and not a string. -/
theorem requestConfig_method_body (m : String) (data : JSVal) :
    requestConfig [("method", .str m), ("body", data)] =
      [("headers", .obj [("Content-Type", .str "application/json")]), ("method", .str m),
       ("body", if data.truthy && !data.isString then JSON.stringify data else data)] := by
  cases h : (data.truthy && !data.isString) <;>
    simp [requestConfig, Record.spread, Record.set, Record.get, JSVal.spreadProps, h]

end ApiService

end GymCloud

namespace GymCloud

namespace Members

/-- A run of `loadMembers` touches only `members` and `loading`, and ends with
`loading` false. -/
theorem loadMembers_state (api : ApiService) (net : Backend) (s : MembersState) (tr : Trace) :
    (loadMembers api net s tr).1.formData = s.formData ∧
    (loadMembers api net s tr).1.editingMember = s.editingMember ∧
    (loadMembers api net s tr).1.showForm = s.showForm ∧
    (loadMembers api net s tr).1.loading = false := by
  unfold loadMembers
  rcases api.getMembers net [] tr with ⟨r, tr1⟩
  cases r with
  | error e => simp [Except.bind]
  | ok data => cases hd : data.getProp "members" <;> simp [Except.bind, hd]

/-- The calls of `fetch` of a run of `handleSubmit` start with those of its
save request. -/
theorem handleSubmit_fetchCalls_prefix (api : ApiService) (net : Backend) (s : MembersState)
    (tr : Trace) :
    ∃ rest, Trace.fetchCalls (handleSubmit api net s tr).2 =
      Trace.fetchCalls (saveRequest api net s tr).2 ++ rest := by
  unfold handleSubmit
  rcases saveRequest api net s tr with ⟨r, tr1⟩
  cases r with
  | error e => exact ⟨[], by simp [Trace.fetchCalls_append, Trace.fetchCalls]⟩
  | ok v => exact ⟨_, loadMembers_fetchCalls api net _ tr1⟩

/-- With a member record in `editingMember`, the first call of `fetch` of a
run of `handleSubmit` is `PUT /members/{memberId}` with the serialised form as
body. -/
theorem handleSubmit_first_call_editing (api : ApiService) (net : Backend)
    (s : MembersState) (tr : Trace) (m : Record) (hm : s.editingMember = .obj m) :
    ∃ init rest, Trace.fetchCalls (handleSubmit api net s tr).2 =
        Trace.fetchCalls tr ++
          (api.baseURL ++ ("/members/" ++ (Record.get m "memberId").toJSString), init)
            :: rest ∧
      fetchMethod init = "PUT" ∧ fetchBody init = JSON.stringify s.formData.toJS := by
  obtain ⟨rest, hrest⟩ := handleSubmit_fetchCalls_prefix api net s tr
  refine ⟨.obj (ApiService.requestConfig
    [("method", .str "PUT"), ("body", s.formData.toJS)]), rest, ?_, ?_, ?_⟩
  · rw [hrest]
    simp only [saveRequest, hm, JSVal.truthy, JSVal.getProp, if_true,
      ApiService.updateMember, ApiService.request_fetchCalls, List.append_assoc,
      List.singleton_append]
  · rw [ApiService.requestConfig_method_body]; rfl
  · rw [ApiService.requestConfig_method_body]; rfl

/-- With `null` in `editingMember`, the first call of `fetch` of a run of
`handleSubmit` is `POST /members` with the serialised form as body. -/
theorem handleSubmit_first_call_creating (api : ApiService) (net : Backend)
    (s : MembersState) (tr : Trace) (hm : s.editingMember = .null) :
    ∃ init rest, Trace.fetchCalls (handleSubmit api net s tr).2 =
        Trace.fetchCalls tr ++ (api.baseURL ++ "/members", init) :: rest ∧
      fetchMethod init = "POST" ∧ fetchBody init = JSON.stringify s.formData.toJS := by
  obtain ⟨rest, hrest⟩ := handleSubmit_fetchCalls_prefix api net s tr
  refine ⟨.obj (ApiService.requestConfig
    [("method", .str "POST"), ("body", s.formData.toJS)]), rest, ?_, ?_, ?_⟩
  · rw [hrest]
    simp [saveRequest, hm, JSVal.truthy,
      ApiService.createMember, ApiService.request_fetchCalls]
  · rw [ApiService.requestConfig_method_body]; rfl
  · rw [ApiService.requestConfig_method_body]; rfl

/-- With a truthy `editingMember`, the first call of `fetch` of a run of
`handleSubmit` is `PUT /members/{editingMember.memberId}` with the serialised
form as body. -/
theorem handleSubmit_first_call_truthy (api : ApiService) (net : Backend)
    (s : MembersState) (tr : Trace) (ht : s.editingMember.truthy = true) :
    ∃ id init rest, s.editingMember.getProp "memberId" = .ok id ∧
      Trace.fetchCalls (handleSubmit api net s tr).2 =
        Trace.fetchCalls tr ++
          (api.baseURL ++ ("/members/" ++ id.toJSString), init) :: rest ∧
      fetchMethod init = "PUT" ∧ fetchBody init = JSON.stringify s.formData.toJS := by
  obtain ⟨rest, hrest⟩ := handleSubmit_fetchCalls_prefix api net s tr
  obtain ⟨id, hid⟩ := JSVal.getProp_of_truthy s.editingMember "memberId" ht
  refine ⟨id, .obj (ApiService.requestConfig
    [("method", .str "PUT"), ("body", s.formData.toJS)]), rest, hid, ?_, ?_, ?_⟩
  · rw [hrest]
    simp only [saveRequest, ht, hid, if_true,
      ApiService.updateMember, ApiService.request_fetchCalls, List.append_assoc,
      List.singleton_append]
  · rw [ApiService.requestConfig_method_body]; rfl
  · rw [ApiService.requestConfig_method_body]; rfl

/-- With an `editingMember` that is not truthy, the first call of `fetch` of a
run of `handleSubmit` is `POST /members` with the serialised form as body. -/
theorem handleSubmit_first_call_falsy (api : ApiService) (net : Backend)
    (s : MembersState) (tr : Trace) (hf : s.editingMember.truthy = false) :
    ∃ init rest, Trace.fetchCalls (handleSubmit api net s tr).2 =
        Trace.fetchCalls tr ++ (api.baseURL ++ "/members", init) :: rest ∧
      fetchMethod init = "POST" ∧ fetchBody init = JSON.stringify s.formData.toJS := by
  obtain ⟨rest, hrest⟩ := handleSubmit_fetchCalls_prefix api net s tr
  refine ⟨.obj (ApiService.requestConfig
    [("method", .str "POST"), ("body", s.formData.toJS)]), rest, ?_, ?_, ?_⟩
  · rw [hrest]
    simp [saveRequest, hf, ApiService.createMember, ApiService.request_fetchCalls]
  · rw [ApiService.requestConfig_method_body]; rfl
  · rw [ApiService.requestConfig_method_body]; rfl

end Members

end GymCloud

/-! ## Helper facts about the workout form -/

namespace GymCloud

namespace Workouts

/-- Filtering out one index erases the element at that index. -/
theorem filterWithIndex_ne {α : Type} (index : Nat) (xs : List α) (start : Nat) :
    filterWithIndex (fun _ i => i != index) xs start =
      if index < start then xs else xs.eraseIdx (index - start) := by
  induction xs generalizing start with
  | nil => simp [filterWithIndex]
  | cons x rest ih =>
    simp only [filterWithIndex, ih (start + 1)]
    by_cases h : start = index
    · subst h
      simp
    · have hne : (start != index) = true := by simpa using h
      rw [if_pos hne]
      by_cases hlt : index < start
      · have : index < start + 1 := by omega
        simp [hlt, this]
      · have hgt : start < index := by omega
        have h1 : ¬ index < start + 1 := by omega
        obtain ⟨k, hk⟩ : ∃ k, index - start = k + 1 := ⟨index - start - 1, by omega⟩
        have h2 : index - (start + 1) = k := by omega
        simp [hlt, h1, hk, h2]

/-- The exercise list after `removeExercise(index)`. -/
theorem removeExercise_exercises (s : WorkoutsState) (index : Nat) :
    (removeExercise s index).formData.exercises = s.formData.exercises.eraseIdx index := by
  simp [removeExercise, filterWithIndex_ne]

/-- A run of `loadWorkouts` leaves the form as it is. -/
theorem loadWorkouts_formData (api : ApiService) (net : Backend) (s : WorkoutsState)
    (tr : Trace) :
    (loadWorkouts api net s tr).1.formData = s.formData := by
  unfold loadWorkouts
  rcases api.getWorkouts net [] tr with ⟨r, tr1⟩
  cases r with
  | error e => simp [Except.bind]
  | ok data => cases hd : data.getProp "workouts" <;> simp [Except.bind, hd]

/-- A run of `handleSubmit` leaves the form as it is or blank. -/
theorem handleSubmit_formData (api : ApiService) (net : Backend) (today : String)
    (s : WorkoutsState) (tr : Trace) :
    (handleSubmit api net today s tr).1.formData = s.formData ∨
    (handleSubmit api net today s tr).1.formData = blankForm today := by
  unfold handleSubmit
  rcases api.createWorkout net s.formData.toJS tr with ⟨r, tr1⟩
  cases r with
  | error e => exact Or.inl rfl
  | ok v => exact Or.inr (by simp [loadWorkouts_formData, resetForm])

/-- An offered action keeps the exercise list non-empty. -/
theorem step_keeps_exercises (api : ApiService) (net : Backend) (st : WorkoutsState × Trace)
    (a : Action) (hoff : offered st.1 a = true)
    (h : 1 ≤ st.1.formData.exercises.length) :
    1 ≤ (step api net st a).1.formData.exercises.length := by
  cases a with
  | openForm => simpa [step, openForm] using h
  | changeField field value => cases field <;> simpa [step, changeField] using h
  | addExercise => simp [step, addExercise]
  | removeExercise index =>
    simp only [offered, Bool.and_eq_true, decide_eq_true_eq] at hoff
    simp only [step, removeExercise_exercises, List.length_eraseIdx]
    rw [if_pos hoff.2]
    omega
  | updateExercise index field value =>
    simp only [step, updateExercise]
    cases hg : st.1.formData.exercises.get? index with
    | none => simpa using h
    | some x => simpa using h
  | resetForm today => simp [step, resetForm, blankForm]
  | submit today =>
    simp only [step]
    rcases handleSubmit_formData api net today st.1 st.2 with hf | hf
    · rw [hf]; exact h
    · rw [hf]; simp [blankForm]

/-- A sequence of offered actions keeps the exercise list non-empty. -/
theorem run_keeps_exercises (api : ApiService) (net : Backend) (actions : List Action)
    (st0 st : WorkoutsState × Trace) (h0 : 1 ≤ st0.1.formData.exercises.length)
    (hrun : run api net st0 actions = some st) :
    1 ≤ st.1.formData.exercises.length := by
  induction actions generalizing st0 with
  | nil =>
    simp only [run, Option.some.injEq] at hrun
    rw [← hrun]; exact h0
  | cons a rest ih =>
    simp only [run] at hrun
    cases hoff : offered st0.1 a with
    | false => simp [hoff] at hrun
    | true =>
      simp only [hoff, if_true] at hrun
      exact ih (step api net st0 a) (step_keeps_exercises api net st0 a hoff h0) hrun

end Workouts

end GymCloud

/-! ## The two string conversions agree where the conversion does not throw -/

namespace JSVal

mutual
theorem toJSString_of_toStringOrThrow :
    ∀ (v : JSVal) (s : String), v.toStringOrThrow = .ok s → v.toJSString = s
  | .undefined, s, h => by simpa [toStringOrThrow, toJSString] using h
  | .null, s, h => by simpa [toStringOrThrow, toJSString] using h
  | .bool b, s, h => by simpa [toStringOrThrow, toJSString] using h
  | .num n, s, h => by simpa [toStringOrThrow, toJSString] using h
  | .str t, s, h => by simpa [toStringOrThrow, toJSString] using h
  | .arr xs, s, h => by
    simp only [toStringOrThrow] at h
    simp only [toJSString]
    exact joinComma_of_joinOrThrow xs s h
  | .obj fields, s, h => by
    simp only [toStringOrThrow] at h
    split at h
    · cases h
    · simpa [toJSString] using h
theorem joinComma_of_joinOrThrow :
    ∀ (xs : List JSVal) (s : String), joinOrThrow xs = .ok s → joinComma xs = s
  | [], s, h => by simpa [joinOrThrow, joinComma] using h
  | [x], s, h => by
    simp only [joinOrThrow] at h
    simp only [joinComma]
    exact toJSElem_of_elemOrThrow x s h
  | x :: y :: rest, s, h => by
    simp only [joinOrThrow] at h
    simp only [joinComma]
    cases hx : elemOrThrow x with
    | error e => simp [hx] at h
    | ok a =>
      cases hr : joinOrThrow (y :: rest) with
      | error e => simp [hx, hr] at h
      | ok b =>
        simp only [hx, hr, Except.ok.injEq] at h
        rw [toJSElem_of_elemOrThrow x a hx, joinComma_of_joinOrThrow (y :: rest) b hr, h]
theorem toJSElem_of_elemOrThrow :
    ∀ (v : JSVal) (s : String), elemOrThrow v = .ok s → toJSElem v = s
  | .undefined, s, h => by simpa [elemOrThrow, toJSElem] using h
  | .null, s, h => by simpa [elemOrThrow, toJSElem] using h
  | .bool b, s, h => by simpa [elemOrThrow, toJSElem] using h
  | .num n, s, h => by simpa [elemOrThrow, toJSElem] using h
  | .str t, s, h => by simpa [elemOrThrow, toJSElem] using h
  | .arr xs, s, h => by
    simp only [elemOrThrow] at h
    simp only [toJSElem]
    exact joinComma_of_joinOrThrow xs s h
  | .obj fields, s, h => by
    simp only [elemOrThrow] at h
    split at h
    · cases h
    · simpa [toJSElem] using h
end

end JSVal

/-! ## Claims -/

namespace GymCloud

/-- C1: in `Members.loadMembers` and `Workouts.loadWorkouts`, for every prior
state, trace and network, whenever the list request (`getMembers()` /
`getWorkouts()`) throws, whatever the error, the state afterwards is the prior
state with the list replaced by the hardcoded mock list and `loading` false;
the mock lists are two members with `memberId` '1' and '2' (Marco Rossi,
Giulia Bianchi) and one workout with `workoutId` '1'. -/
theorem list_load_failure_sets_mock (api : ApiService) (net : Backend) :
    (∀ (s : MembersState) (tr : Trace) (e : JSError) (tr' : Trace),
      api.getMembers net [] tr = (.error e, tr') →
      (Members.loadMembers api net s tr).1 =
        { s with members := Members.mockMembers, loading := false }) ∧
    (∀ (s : WorkoutsState) (tr : Trace) (e : JSError) (tr' : Trace),
      api.getWorkouts net [] tr = (.error e, tr') →
      (Workouts.loadWorkouts api net s tr).1 =
        { s with workouts := Workouts.mockWorkouts, loading := false }) ∧
    (match Members.mockMembers with
     | .arr [m1, m2] =>
       m1.getProp "memberId" = .ok (.str "1") ∧ m1.getProp "firstName" = .ok (.str "Marco") ∧
       m1.getProp "lastName" = .ok (.str "Rossi") ∧
       m2.getProp "memberId" = .ok (.str "2") ∧ m2.getProp "firstName" = .ok (.str "Giulia") ∧
       m2.getProp "lastName" = .ok (.str "Bianchi")
     | _ => False) ∧
    (match Workouts.mockWorkouts with
     | .arr [w] => w.getProp "workoutId" = .ok (.str "1")
     | _ => False) := by
  refine ⟨?_, ?_, ?_, ?_⟩
  · intro s tr e tr' h
    simp [Members.loadMembers, h, Except.bind]
  · intro s tr e tr' h
    simp [Workouts.loadWorkouts, h, Except.bind]
  · exact ⟨rfl, rfl, rfl, rfl, rfl, rfl⟩
  · rfl

/-- C1, worked example: with no network, loading from the initial states gives
the mock lists and `loading` false. -/
theorem list_load_failure_sets_mock_witness :
    (Members.loadMembers Scenario.api Scenario.offline Members.initial []).1 =
        { Members.initial with members := Members.mockMembers, loading := false } ∧
    (Workouts.loadWorkouts Scenario.api Scenario.offline (Workouts.initial "2024-08-19") []).1 =
        { Workouts.initial "2024-08-19" with
          workouts := Workouts.mockWorkouts, loading := false } :=
  ⟨(list_load_failure_sets_mock Scenario.api Scenario.offline).1 Members.initial []
      ⟨"TypeError", "Failed to fetch"⟩
      [Event.fetch "https://api.gymcloud.com/members"
          (.obj [("headers", .obj [("Content-Type", .str "application/json")])]),
        Event.consoleError "API request failed:" ⟨"TypeError", "Failed to fetch"⟩]
      rfl,
   (list_load_failure_sets_mock Scenario.api Scenario.offline).2.1
      (Workouts.initial "2024-08-19") []
      ⟨"TypeError", "Failed to fetch"⟩
      [Event.fetch "https://api.gymcloud.com/workouts"
          (.obj [("headers", .obj [("Content-Type", .str "application/json")])]),
        Event.consoleError "API request failed:" ⟨"TypeError", "Failed to fetch"⟩]
      rfl⟩

end GymCloud

namespace GymCloud

/-- C2: `Members.handleSubmit` is atomic on failure. For every state, trace
and network, if the save request (`updateMember(editingMember.memberId,
formData)` when `editingMember` is set, `createMember(formData)` otherwise)
throws an error `e`, then the state afterwards is the state before
(`formData`, `editingMember`, `showForm`, `members` and `loading` unchanged),
the run adds to the trace of the save request only
`console.error('Error saving member:', e)` and one alert, the alerts of the
run are exactly the one alert 'Errore nel salvare il membro: ' followed by
`e.message`, and the only call of `fetch` is the one of the save request (no
list reload). -/
theorem handleSubmit_failure_is_atomic (api : ApiService) (net : Backend) (s : MembersState)
    (tr : Trace) (e : JSError) (tr' : Trace)
    (h : Members.saveRequest api net s tr = (.error e, tr')) :
    Members.handleSubmit api net s tr =
      (s, tr' ++ [Event.consoleError "Error saving member:" e,
                  Event.alert ("Errore nel salvare il membro: " ++ e.message)]) ∧
    Trace.alerts (Members.handleSubmit api net s tr).2 =
      Trace.alerts tr ++ ["Errore nel salvare il membro: " ++ e.message] ∧
    Trace.fetchCalls (Members.handleSubmit api net s tr).2 = Trace.fetchCalls tr' ∧
    (Trace.fetchCalls (Members.handleSubmit api net s tr).2).length =
      (Trace.fetchCalls tr).length + 1 := by
  have hrun : Members.handleSubmit api net s tr =
      (s, tr' ++ [Event.consoleError "Error saving member:" e,
                  Event.alert ("Errore nel salvare il membro: " ++ e.message)]) := by
    simp [Members.handleSubmit, h]
  have ha := Members.saveRequest_alerts api net s tr
  have hf := Members.saveRequest_fetchCalls_length api net s tr
  rw [h] at ha hf
  simp only [] at ha hf
  refine ⟨hrun, ?_, ?_, ?_⟩
  · rw [hrun]; simp [Trace.alerts_append, Trace.alerts, ha]
  · rw [hrun]; simp [Trace.fetchCalls_append, Trace.fetchCalls]
  · rw [hrun]; simp [Trace.fetchCalls_append, Trace.fetchCalls, hf]

/-- C2, worked example: creating a member from the initial state against a
server that answers 500 with `error: "boom"` leaves the state as it was and
shows the one alert 'Errore nel salvare il membro: boom'. -/
theorem handleSubmit_failure_is_atomic_witness :
    (Members.handleSubmit Scenario.api Scenario.refusing Members.initial []).1 =
      Members.initial ∧
    Trace.alerts (Members.handleSubmit Scenario.api Scenario.refusing Members.initial []).2 =
      ["Errore nel salvare il membro: boom"] ∧
    (Trace.fetchCalls
      (Members.handleSubmit Scenario.api Scenario.refusing Members.initial []).2).length = 1 :=
  have h := handleSubmit_failure_is_atomic Scenario.api Scenario.refusing Members.initial []
    ⟨"Error", "boom"⟩
    (Members.saveRequest Scenario.api Scenario.refusing Members.initial []).2 rfl
  ⟨congrArg Prod.fst h.1, h.2.1, h.2.2.2⟩

end GymCloud

/-- C3, as stated, fails: against a server that accepts everything,
`Members.handleSubmit` from the initial state has its save request succeed and
calls `fetch` twice, not once (`POST /members`, then the `GET /members` of the
reload). -/
theorem handleSubmit_success_fetches_twice :
    (GymCloud.Members.saveRequest Scenario.api Scenario.accepting
        GymCloud.Members.initial []).1 =
      .ok (.obj [("members", .arr []), ("workouts", .arr [])]) ∧
    (Trace.fetchCalls (GymCloud.Members.handleSubmit Scenario.api Scenario.accepting
        GymCloud.Members.initial []).2).map Prod.fst =
      ["https://api.gymcloud.com/members", "https://api.gymcloud.com/members"] ∧
    ¬ (Trace.fetchCalls (GymCloud.Members.handleSubmit Scenario.api Scenario.accepting
        GymCloud.Members.initial []).2).length = 1 := by
  refine ⟨rfl, rfl, ?_⟩
  decide

/-- C3, amended: a run of an action handler whose own request succeeds calls
`fetch` exactly twice, once for the action's request and once more for the
list reload that follows it (`GET /members` after `Members.handleSubmit` and
after a confirmed `Members.deleteMember`, `GET /workouts` after
`Workouts.handleSubmit`, `GET /users` after `createRandomUser`, whose request
succeeds when the response is ok and its body parses); a run of `fetchUsers`
calls `fetch` exactly once, whatever the outcome. -/
theorem action_handlers_fetch_request_then_reload (api : GymCloud.ApiService) (net : Backend) :
    (∀ (s : GymCloud.MembersState) (tr : Trace) (v : JSVal) (tr' : Trace),
      GymCloud.Members.saveRequest api net s tr = (.ok v, tr') →
      Trace.fetchCalls (GymCloud.Members.handleSubmit api net s tr).2 =
        Trace.fetchCalls tr' ++
          [(api.baseURL ++ "/members", .obj (GymCloud.ApiService.requestConfig []))] ∧
      (Trace.fetchCalls (GymCloud.Members.handleSubmit api net s tr).2).length =
        (Trace.fetchCalls tr).length + 2) ∧
    (∀ (s : GymCloud.MembersState) (memberId : JSVal) (tr : Trace) (v : JSVal) (tr' : Trace),
      api.deleteMember net memberId
          (tr ++ [Event.confirm "Sei sicuro di voler eliminare questo membro?"]) = (.ok v, tr') →
      Trace.fetchCalls (GymCloud.Members.deleteMember api net true s memberId tr).2 =
        Trace.fetchCalls tr ++
          [(api.baseURL ++ "/members/" ++ memberId.toJSString,
              .obj (GymCloud.ApiService.requestConfig [("method", .str "DELETE")])),
           (api.baseURL ++ "/members", .obj (GymCloud.ApiService.requestConfig []))]) ∧
    (∀ (today : String) (s : GymCloud.WorkoutsState) (tr : Trace) (v : JSVal) (tr' : Trace),
      api.createWorkout net s.formData.toJS tr = (.ok v, tr') →
      Trace.fetchCalls (GymCloud.Workouts.handleSubmit api net today s tr).2 =
        Trace.fetchCalls tr ++
          [(api.baseURL ++ "/workouts",
              .obj (GymCloud.ApiService.requestConfig
                [("method", .str "POST"), ("body", s.formData.toJS)])),
           (api.baseURL ++ "/workouts", .obj (GymCloud.ApiService.requestConfig []))]) ∧
    (∀ (s : GymUsersApp.State) (tr : Trace),
      Trace.fetchCalls (GymUsersApp.fetchUsers net s tr).2 =
        Trace.fetchCalls tr ++ [(GymUsersApp.API_BASE_URL ++ "/users", .undefined)]) ∧
    (∀ (s : GymUsersApp.State) (tr : Trace) (v : JSVal),
      GymUsersApp.createTry (net (Trace.fetchCalls tr).length
          (GymUsersApp.API_BASE_URL ++ "/users") GymUsersApp.createInit) = .ok v →
      Trace.fetchCalls (GymUsersApp.createRandomUser net s tr).2 =
        Trace.fetchCalls tr ++
          [(GymUsersApp.API_BASE_URL ++ "/users", GymUsersApp.createInit),
           (GymUsersApp.API_BASE_URL ++ "/users", .undefined)]) := by
  refine ⟨?_, ?_, ?_, ?_, ?_⟩
  · intro s tr v tr' h
    have hl := GymCloud.Members.saveRequest_fetchCalls_length api net s tr
    rw [h] at hl
    simp only [] at hl
    have hrun : GymCloud.Members.handleSubmit api net s tr =
        GymCloud.Members.loadMembers api net (GymCloud.Members.resetForm s) tr' := by
      simp [GymCloud.Members.handleSubmit, h]
    rw [hrun, GymCloud.Members.loadMembers_fetchCalls]
    simp [hl]
  · intro s memberId tr v tr' h
    have hf := GymCloud.ApiService.request_fetchCalls api net
      ("/members/" ++ memberId.toJSString) [("method", .str "DELETE")]
      (tr ++ [Event.confirm "Sei sicuro di voler eliminare questo membro?"])
    have h' := h
    unfold GymCloud.ApiService.deleteMember at h'
    rw [h'] at hf
    have hrun : GymCloud.Members.deleteMember api net true s memberId tr =
        GymCloud.Members.loadMembers api net s tr' := by
      simp [GymCloud.Members.deleteMember, h]
    rw [hrun, GymCloud.Members.loadMembers_fetchCalls]
    simp only [] at hf
    rw [hf]
    simp [Trace.fetchCalls_append, Trace.fetchCalls, String.append_assoc]
  · intro today s tr v tr' h
    have hf := GymCloud.ApiService.request_fetchCalls api net "/workouts"
      [("method", .str "POST"), ("body", s.formData.toJS)] tr
    have h' := h
    unfold GymCloud.ApiService.createWorkout at h'
    rw [h'] at hf
    have hrun : GymCloud.Workouts.handleSubmit api net today s tr =
        GymCloud.Workouts.loadWorkouts api net (GymCloud.Workouts.resetForm today s) tr' := by
      simp [GymCloud.Workouts.handleSubmit, h]
    rw [hrun, GymCloud.Workouts.loadWorkouts_fetchCalls]
    simp only [] at hf
    rw [hf]
    simp
  · intro s tr
    exact GymUsersApp.fetchUsers_fetchCalls net s tr
  · intro s tr v h
    simp [GymUsersApp.createRandomUser, h, GymUsersApp.fetchUsers_fetchCalls,
      Trace.fetchCalls_append, Trace.fetchCalls]

/-- C3 amended, worked example: against a server that accepts everything,
saving a member, deleting member '1', saving a workout and creating a user each
call `fetch` twice, the second call being the reload of the list. -/
theorem action_handlers_fetch_request_then_reload_witness :
    (Trace.fetchCalls (GymCloud.Members.handleSubmit Scenario.api Scenario.accepting
        GymCloud.Members.initial []).2).length = 2 ∧
    (Trace.fetchCalls (GymCloud.Members.deleteMember Scenario.api Scenario.accepting true
        GymCloud.Members.initial (.str "1") []).2).map Prod.fst =
      ["https://api.gymcloud.com/members/1", "https://api.gymcloud.com/members"] ∧
    (Trace.fetchCalls (GymCloud.Workouts.handleSubmit Scenario.api Scenario.accepting
        "2024-08-19" (GymCloud.Workouts.initial "2024-08-19") []).2).map Prod.fst =
      ["https://api.gymcloud.com/workouts", "https://api.gymcloud.com/workouts"] ∧
    (Trace.fetchCalls (GymUsersApp.createRandomUser Scenario.accepting
        GymUsersApp.initial []).2).map (fun c => fetchMethod c.2) = ["POST", "GET"] :=
  have h := action_handlers_fetch_request_then_reload Scenario.api Scenario.accepting
  ⟨(h.1 GymCloud.Members.initial []
      (.obj [("members", .arr []), ("workouts", .arr [])])
      (GymCloud.Members.saveRequest Scenario.api Scenario.accepting
        GymCloud.Members.initial []).2 rfl).2,
   congrArg (List.map Prod.fst)
     (h.2.1 GymCloud.Members.initial (.str "1") []
      (.obj [("members", .arr []), ("workouts", .arr [])])
      (Scenario.api.deleteMember Scenario.accepting (.str "1")
        [Event.confirm "Sei sicuro di voler eliminare questo membro?"]).2 rfl),
   congrArg (List.map Prod.fst)
     (h.2.2.1 "2024-08-19" (GymCloud.Workouts.initial "2024-08-19") []
      (.obj [("members", .arr []), ("workouts", .arr [])])
      (Scenario.api.createWorkout Scenario.accepting
        (GymCloud.Workouts.initial "2024-08-19").formData.toJS []).2 rfl),
   congrArg (List.map (fun c => fetchMethod c.2))
     (h.2.2.2.2 GymUsersApp.initial []
      (.obj [("members", .arr []), ("workouts", .arr [])]) rfl)⟩

namespace GymUsersApp

/-- C4, as stated, fails: with no network, `fetchUsers` from a state holding
one user logs nothing to the console, shows no alert and leaves the user list
as it was (no mock data); the error goes to the state `error` instead. -/
theorem fetchUsers_failure_uses_none_of_the_three_ways :
    ¬ (Trace.consoleErrors (fetchUsers Scenario.offline Scenario.oneUser []).2 ≠ [] ∨
       Trace.alerts (fetchUsers Scenario.offline Scenario.oneUser []).2 ≠ [] ∨
       (fetchUsers Scenario.offline Scenario.oneUser []).1.users ≠ Scenario.oneUser.users) ∧
    (fetchUsers Scenario.offline Scenario.oneUser []).1.error =
      "Errore nel caricamento utenti: Failed to fetch" := by
  refine ⟨?_, rfl⟩
  intro h
  rcases h with h | h | h
  · exact h rfl
  · exact h rfl
  · exact h rfl

/-- C4, amended: in the users frontend every failure of the request made by
`fetchUsers` or by `createRandomUser` (the promise of `fetch` rejects, the
response is not ok, or its body does not parse) is caught and handled by
storing a message in the state `error`, which the page displays:
'Errore nel caricamento utenti: ' or 'Errore nella creazione utente: ' followed
by the error message. The handler ends normally with `loading` (or `creating`)
false and every other state unchanged, in particular `users`; the only effect
is the one call of `fetch`: nothing is logged, no alert is shown and no mock
data is used. -/
theorem users_request_failure_sets_error_state (net : Backend) (s : State) (tr : Trace) :
    (∀ e, net (Trace.fetchCalls tr).length (API_BASE_URL ++ "/users") .undefined = .error e →
      fetchUsers net s tr =
        ({ s with error := "Errore nel caricamento utenti: " ++ e.message, loading := false },
          tr ++ [Event.fetch (API_BASE_URL ++ "/users") .undefined])) ∧
    (∀ response,
      net (Trace.fetchCalls tr).length (API_BASE_URL ++ "/users") .undefined = .ok response →
      response.ok = false →
      fetchUsers net s tr =
        ({ s with error := "Errore nel caricamento utenti: Failed to fetch users",
                  loading := false },
          tr ++ [Event.fetch (API_BASE_URL ++ "/users") .undefined])) ∧
    (∀ response e,
      net (Trace.fetchCalls tr).length (API_BASE_URL ++ "/users") .undefined = .ok response →
      response.ok = true → response.json = .error e →
      fetchUsers net s tr =
        ({ s with error := "Errore nel caricamento utenti: " ++ e.message, loading := false },
          tr ++ [Event.fetch (API_BASE_URL ++ "/users") .undefined])) ∧
    (∀ e, net (Trace.fetchCalls tr).length (API_BASE_URL ++ "/users") createInit = .error e →
      createRandomUser net s tr =
        ({ s with error := "Errore nella creazione utente: " ++ e.message, creating := false },
          tr ++ [Event.fetch (API_BASE_URL ++ "/users") createInit])) ∧
    (∀ response,
      net (Trace.fetchCalls tr).length (API_BASE_URL ++ "/users") createInit = .ok response →
      response.ok = false →
      createRandomUser net s tr =
        ({ s with error := "Errore nella creazione utente: Failed to create user",
                  creating := false },
          tr ++ [Event.fetch (API_BASE_URL ++ "/users") createInit])) ∧
    (∀ response e,
      net (Trace.fetchCalls tr).length (API_BASE_URL ++ "/users") createInit = .ok response →
      response.ok = true → response.json = .error e →
      createRandomUser net s tr =
        ({ s with error := "Errore nella creazione utente: " ++ e.message, creating := false },
          tr ++ [Event.fetch (API_BASE_URL ++ "/users") createInit])) := by
  refine ⟨?_, ?_, ?_, ?_, ?_, ?_⟩
  · intro e h
    simp [fetchUsers, fetchUsersTry, h]
  · intro response h hok
    simp [fetchUsers, fetchUsersTry, h, hok]
  · intro response e h hok hj
    simp [fetchUsers, fetchUsersTry, h, hok, hj]
  · intro e h
    simp [createRandomUser, createTry, h]
  · intro response h hok
    simp [createRandomUser, createTry, h, hok]
  · intro response e h hok hj
    simp [createRandomUser, createTry, h, hok, hj]

/-- C4 amended, worked example: from a state holding one user, with no
network, against a server that answers 500 and against one that answers 204
with an empty body, both handlers end with the message in `error`. -/
theorem users_request_failure_sets_error_state_witness :
    (fetchUsers Scenario.offline Scenario.oneUser []).1.error =
      "Errore nel caricamento utenti: Failed to fetch" ∧
    (fetchUsers Scenario.refusing Scenario.oneUser []).1.error =
      "Errore nel caricamento utenti: Failed to fetch users" ∧
    (fetchUsers Scenario.noContent Scenario.oneUser []).1.error =
      "Errore nel caricamento utenti: Unexpected end of JSON input" ∧
    (createRandomUser Scenario.offline Scenario.oneUser []).1.error =
      "Errore nella creazione utente: Failed to fetch" ∧
    (createRandomUser Scenario.refusing Scenario.oneUser []).1.error =
      "Errore nella creazione utente: Failed to create user" ∧
    (createRandomUser Scenario.noContent Scenario.oneUser []).1.error =
      "Errore nella creazione utente: Unexpected end of JSON input" :=
  ⟨congrArg (fun r => r.1.error)
     ((users_request_failure_sets_error_state Scenario.offline Scenario.oneUser []).1
       ⟨"TypeError", "Failed to fetch"⟩ rfl),
   congrArg (fun r => r.1.error)
     ((users_request_failure_sets_error_state Scenario.refusing Scenario.oneUser []).2.1
       _ rfl rfl),
   congrArg (fun r => r.1.error)
     ((users_request_failure_sets_error_state Scenario.noContent Scenario.oneUser []).2.2.1
       _ ⟨"SyntaxError", "Unexpected end of JSON input"⟩ rfl rfl rfl),
   congrArg (fun r => r.1.error)
     ((users_request_failure_sets_error_state Scenario.offline Scenario.oneUser []).2.2.2.1
       ⟨"TypeError", "Failed to fetch"⟩ rfl),
   congrArg (fun r => r.1.error)
     ((users_request_failure_sets_error_state Scenario.refusing Scenario.oneUser []).2.2.2.2.1
       _ rfl rfl),
   congrArg (fun r => r.1.error)
     ((users_request_failure_sets_error_state Scenario.noContent Scenario.oneUser []).2.2.2.2.2
       _ ⟨"SyntaxError", "Unexpected end of JSON input"⟩ rfl rfl rfl)⟩

end GymUsersApp

namespace GymCloud

/-- C5: `ApiService.request` never retries. For every endpoint, options,
network and earlier trace, one invocation adds exactly one call of `fetch`
(of `baseURL` followed by the endpoint). When `fetch` rejects, when
`response.json()` rejects, or when the status check fails (`response.ok` is
false), the call ends with an error, no value is returned, and the trace gains
after the `fetch` exactly one `console.error('API request failed:', error)`
whose error is the very error rethrown; when all three succeed the parsed data
is returned and nothing is logged. -/
theorem request_fetches_once_and_rethrows (api : ApiService) (net : Backend)
    (endpoint : String) (options : Record) (tr : Trace) :
    Trace.fetchCalls (api.request net endpoint options tr).2 =
      Trace.fetchCalls tr ++
        [(api.baseURL ++ endpoint, JSVal.obj (ApiService.requestConfig options))] ∧
    (match net (Trace.fetchCalls tr).length (api.baseURL ++ endpoint)
        (JSVal.obj (ApiService.requestConfig options)) with
     | .error e =>
       api.request net endpoint options tr =
         (.error e,
           tr ++ [Event.fetch (api.baseURL ++ endpoint)
                    (JSVal.obj (ApiService.requestConfig options)),
                  Event.consoleError "API request failed:" e])
     | .ok response =>
       match response.json with
       | .error e =>
         api.request net endpoint options tr =
           (.error e,
             tr ++ [Event.fetch (api.baseURL ++ endpoint)
                      (JSVal.obj (ApiService.requestConfig options)),
                    Event.consoleError "API request failed:" e])
       | .ok data =>
         if response.ok = true then
           api.request net endpoint options tr =
             (.ok data,
               tr ++ [Event.fetch (api.baseURL ++ endpoint)
                        (JSVal.obj (ApiService.requestConfig options))])
         else
           ∃ e, api.request net endpoint options tr =
             (.error e,
               tr ++ [Event.fetch (api.baseURL ++ endpoint)
                        (JSVal.obj (ApiService.requestConfig options)),
                      Event.consoleError "API request failed:" e])) := by
  refine ⟨ApiService.request_fetchCalls api net endpoint options tr, ?_⟩
  rw [ApiService.request_eq]
  cases h : net (Trace.fetchCalls tr).length (api.baseURL ++ endpoint)
      (JSVal.obj (ApiService.requestConfig options)) with
  | error e => simp [ApiService.requestTry]
  | ok response =>
    obtain ⟨ok, status, json⟩ := response
    cases json with
    | error e => simp [ApiService.requestTry]
    | ok data =>
      cases ok with
      | true => simp [ApiService.requestTry]
      | false =>
        cases hp : data.getProp "error" with
        | error e => exact ⟨e, by simp [ApiService.requestTry, hp]⟩
        | ok err =>
          cases hc : (err.or (.str ("HTTP error! status: " ++ toString status))).toStringOrThrow
            with
          | error e => exact ⟨e, by simp [ApiService.requestTry, hp, hc]⟩
          | ok message => exact ⟨_, by simp [ApiService.requestTry, hp, hc]; rfl⟩

end GymCloud

namespace GymCloud

/-- C6: every `ApiService` method makes one call of `fetch`, on `baseURL`
followed by a fixed path, with a fixed verb. For every id, data and parameter
object: `getMember(id)` is `GET /members/{id}`, `createMember(data)` is
`POST /members`, `updateMember(id, data)` is `PUT /members/{id}`,
`deleteMember(id)` is `DELETE /members/{id}` with no body, `createWorkout` is
`POST /workouts`, `createSubscription` is `POST /subscriptions`; and
`getMembers`, `getWorkouts`, `getSubscriptions` are `GET` of the resource path
alone when `params` is empty (no trailing `?`), and of the resource path, `?`
and the URL-encoded query string otherwise. -/
theorem api_methods_url_and_verb (api : ApiService) (net : Backend) (tr : Trace)
    (id data : JSVal) (params : Record) :
    (∃ init, Trace.fetchCalls (api.getMember net id tr).2 =
        Trace.fetchCalls tr ++ [(api.baseURL ++ ("/members/" ++ id.toJSString), init)] ∧
      fetchMethod init = "GET") ∧
    (∃ init, Trace.fetchCalls (api.createMember net data tr).2 =
        Trace.fetchCalls tr ++ [(api.baseURL ++ "/members", init)] ∧
      fetchMethod init = "POST") ∧
    (∃ init, Trace.fetchCalls (api.updateMember net id data tr).2 =
        Trace.fetchCalls tr ++ [(api.baseURL ++ ("/members/" ++ id.toJSString), init)] ∧
      fetchMethod init = "PUT") ∧
    (∃ init, Trace.fetchCalls (api.deleteMember net id tr).2 =
        Trace.fetchCalls tr ++ [(api.baseURL ++ ("/members/" ++ id.toJSString), init)] ∧
      fetchMethod init = "DELETE" ∧ fetchBody init = .undefined) ∧
    (∃ init, Trace.fetchCalls (api.createWorkout net data tr).2 =
        Trace.fetchCalls tr ++ [(api.baseURL ++ "/workouts", init)] ∧
      fetchMethod init = "POST") ∧
    (∃ init, Trace.fetchCalls (api.createSubscription net data tr).2 =
        Trace.fetchCalls tr ++ [(api.baseURL ++ "/subscriptions", init)] ∧
      fetchMethod init = "POST") ∧
    (∃ init, Trace.fetchCalls (api.getMembers net params tr).2 =
        Trace.fetchCalls tr ++
          [(api.baseURL ++ (if params.isEmpty then "/members"
              else "/members" ++ "?" ++ URLSearchParams.toQueryString params), init)] ∧
      fetchMethod init = "GET") ∧
    (∃ init, Trace.fetchCalls (api.getWorkouts net params tr).2 =
        Trace.fetchCalls tr ++
          [(api.baseURL ++ (if params.isEmpty then "/workouts"
              else "/workouts" ++ "?" ++ URLSearchParams.toQueryString params), init)] ∧
      fetchMethod init = "GET") ∧
    (∃ init, Trace.fetchCalls (api.getSubscriptions net params tr).2 =
        Trace.fetchCalls tr ++
          [(api.baseURL ++ (if params.isEmpty then "/subscriptions"
              else "/subscriptions" ++ "?" ++ URLSearchParams.toQueryString params), init)] ∧
      fetchMethod init = "GET") := by
  refine ⟨⟨.obj (ApiService.requestConfig []),
      ApiService.request_fetchCalls api net _ _ tr, rfl⟩,
    ⟨_, ApiService.request_fetchCalls api net _ _ tr, ?_⟩,
    ⟨_, ApiService.request_fetchCalls api net _ _ tr, ?_⟩,
    ⟨_, ApiService.request_fetchCalls api net _ _ tr, rfl, rfl⟩,
    ⟨_, ApiService.request_fetchCalls api net _ _ tr, ?_⟩,
    ⟨_, ApiService.request_fetchCalls api net _ _ tr, ?_⟩,
    ⟨.obj (ApiService.requestConfig []), ?_, rfl⟩,
    ⟨.obj (ApiService.requestConfig []), ?_, rfl⟩,
    ⟨.obj (ApiService.requestConfig []), ?_, rfl⟩⟩
  · rw [ApiService.requestConfig_method_body]; rfl
  · rw [ApiService.requestConfig_method_body]; rfl
  · rw [ApiService.requestConfig_method_body]; rfl
  · rw [ApiService.requestConfig_method_body]; rfl
  · rw [← ApiService.listPath_eq]
    exact ApiService.request_fetchCalls api net _ _ tr
  · rw [← ApiService.listPath_eq]
    exact ApiService.request_fetchCalls api net _ _ tr
  · rw [← ApiService.listPath_eq]
    exact ApiService.request_fetchCalls api net _ _ tr

end GymCloud

namespace GymCloud

/-- C7, as stated, fails: when the list of members holds the number 0, the row
rendered for it passes 0 to `startEdit`, which stores it in `editingMember`;
`editingMember` is then not `null`, yet `handleSubmit` issues
`POST /members` (followed by the reload), not a `PUT`. -/
theorem handleSubmit_falsy_member_posts :
    Members.startEdit Members.initial (.num 0) = .ok Scenario.editingZero ∧
    Scenario.editingZero.editingMember = .num 0 ∧
    Scenario.editingZero.editingMember ≠ .null ∧
    (Trace.fetchCalls (Members.handleSubmit Scenario.api Scenario.accepting
        Scenario.editingZero []).2).map (fun c => (fetchMethod c.2, c.1)) =
      [("POST", "https://api.gymcloud.com/members"),
       ("GET", "https://api.gymcloud.com/members")] := by
  refine ⟨rfl, rfl, ?_, rfl⟩
  intro h
  have h' : JSVal.num 0 = JSVal.null := h
  exact JSVal.noConfusion h'

/-- C7, amended: `Members.handleSubmit` maps the form directly to one save
request, chosen by the truthiness of `editingMember`. For every state, trace
and network: when `editingMember` is truthy (as every member record is) the
first call of `fetch` of the run is `PUT /members/{editingMember.memberId}`;
when it is not (`null`, or a falsy value such as 0, '' or false) it is
`POST /members`; in both cases the body is `JSON.stringify` of the current
`formData`, as it is; and when the save request succeeds the run continues as
`resetForm` followed by `loadMembers`: the form is blank again, `editingMember`
is `null`, `showForm` is false, and one `GET /members` follows the save
request. -/
theorem handleSubmit_maps_form_to_save_request (api : ApiService) (net : Backend)
    (s : MembersState) (tr : Trace) :
    (s.editingMember.truthy = true →
      ∃ id init rest, s.editingMember.getProp "memberId" = .ok id ∧
        Trace.fetchCalls (Members.handleSubmit api net s tr).2 =
          Trace.fetchCalls tr ++
            (api.baseURL ++ ("/members/" ++ id.toJSString), init) :: rest ∧
        fetchMethod init = "PUT" ∧ fetchBody init = JSON.stringify s.formData.toJS) ∧
    (s.editingMember.truthy = false →
      ∃ init rest, Trace.fetchCalls (Members.handleSubmit api net s tr).2 =
          Trace.fetchCalls tr ++ (api.baseURL ++ "/members", init) :: rest ∧
        fetchMethod init = "POST" ∧ fetchBody init = JSON.stringify s.formData.toJS) ∧
    (∀ m : Record, s.editingMember = .obj m →
      ∃ init rest, Trace.fetchCalls (Members.handleSubmit api net s tr).2 =
          Trace.fetchCalls tr ++
            (api.baseURL ++ ("/members/" ++ (Record.get m "memberId").toJSString), init)
              :: rest ∧
        fetchMethod init = "PUT" ∧ fetchBody init = JSON.stringify s.formData.toJS) ∧
    (s.editingMember = .null →
      ∃ init rest, Trace.fetchCalls (Members.handleSubmit api net s tr).2 =
          Trace.fetchCalls tr ++ (api.baseURL ++ "/members", init) :: rest ∧
        fetchMethod init = "POST" ∧ fetchBody init = JSON.stringify s.formData.toJS) ∧
    (∀ (v : JSVal) (tr' : Trace), Members.saveRequest api net s tr = (.ok v, tr') →
      Members.handleSubmit api net s tr =
        Members.loadMembers api net (Members.resetForm s) tr' ∧
      (Members.handleSubmit api net s tr).1.formData = Members.blankForm ∧
      (Members.handleSubmit api net s tr).1.editingMember = .null ∧
      (Members.handleSubmit api net s tr).1.showForm = false ∧
      Trace.fetchCalls (Members.handleSubmit api net s tr).2 =
        Trace.fetchCalls tr' ++
          [(api.baseURL ++ "/members", .obj (ApiService.requestConfig []))]) := by
  refine ⟨?_, ?_, ?_, ?_, ?_⟩
  · intro ht
    exact Members.handleSubmit_first_call_truthy api net s tr ht
  · intro hf
    exact Members.handleSubmit_first_call_falsy api net s tr hf
  · intro m hm
    exact Members.handleSubmit_first_call_editing api net s tr m hm
  · intro hm
    exact Members.handleSubmit_first_call_creating api net s tr hm
  · intro v tr' h
    have hrun : Members.handleSubmit api net s tr =
        Members.loadMembers api net (Members.resetForm s) tr' := by
      simp [Members.handleSubmit, h]
    have hst := Members.loadMembers_state api net (Members.resetForm s) tr'
    refine ⟨hrun, ?_, ?_, ?_, ?_⟩
    · rw [hrun, hst.1]; rfl
    · rw [hrun, hst.2.1]; rfl
    · rw [hrun, hst.2.2.1]; rfl
    · rw [hrun, Members.loadMembers_fetchCalls]

end GymCloud

namespace GymCloud

/-- C7 amended, worked example: against a server that accepts everything,
submitting while editing Marco Rossi (truthy) starts with `PUT /members/1`,
submitting from the initial state (`null`) and after `startEdit` on the number
0 (falsy) starts with `POST /members`, and after the successful save the form
is blank again. -/
theorem handleSubmit_maps_form_to_save_request_witness :
    (∃ id init rest, Scenario.editingMarco.editingMember.getProp "memberId" = .ok id ∧
      Trace.fetchCalls
        (Members.handleSubmit Scenario.api Scenario.accepting Scenario.editingMarco []).2 =
          [] ++ ("https://api.gymcloud.com" ++ ("/members/" ++ id.toJSString), init) :: rest ∧
        fetchMethod init = "PUT" ∧
        fetchBody init = JSON.stringify Scenario.editingMarco.formData.toJS) ∧
    (∃ init rest, Trace.fetchCalls
        (Members.handleSubmit Scenario.api Scenario.accepting Scenario.editingZero []).2 =
          [] ++ ("https://api.gymcloud.com" ++ "/members", init) :: rest ∧
        fetchMethod init = "POST" ∧
        fetchBody init = JSON.stringify Scenario.editingZero.formData.toJS) ∧
    (∃ init rest, Trace.fetchCalls
        (Members.handleSubmit Scenario.api Scenario.accepting Scenario.editingMarco []).2 =
          [] ++ ("https://api.gymcloud.com" ++ ("/members/" ++ "1"), init) :: rest ∧
        fetchMethod init = "PUT" ∧
        fetchBody init = JSON.stringify Scenario.editingMarco.formData.toJS) ∧
    (∃ init rest, Trace.fetchCalls
        (Members.handleSubmit Scenario.api Scenario.accepting Members.initial []).2 =
          [] ++ ("https://api.gymcloud.com" ++ "/members", init) :: rest ∧
        fetchMethod init = "POST" ∧
        fetchBody init = JSON.stringify Members.initial.formData.toJS) ∧
    (Members.handleSubmit Scenario.api Scenario.accepting Scenario.editingMarco []).1.formData =
      Members.blankForm :=
  ⟨(handleSubmit_maps_form_to_save_request Scenario.api Scenario.accepting
      Scenario.editingMarco []).1 rfl,
   (handleSubmit_maps_form_to_save_request Scenario.api Scenario.accepting
      Scenario.editingZero []).2.1 rfl,
   (handleSubmit_maps_form_to_save_request Scenario.api Scenario.accepting
      Scenario.editingMarco []).2.2.1 _ rfl,
   (handleSubmit_maps_form_to_save_request Scenario.api Scenario.accepting
      Members.initial []).2.2.2.1 rfl,
   ((handleSubmit_maps_form_to_save_request Scenario.api Scenario.accepting
      Scenario.editingMarco []).2.2.2.2
      (.obj [("members", .arr []), ("workouts", .arr [])])
      (Members.saveRequest Scenario.api Scenario.accepting Scenario.editingMarco []).2
      rfl).2.1⟩

end GymCloud

namespace GymCloud

/-- C8, as stated, fails: for the member Marco Rossi of the mock list,
`startEdit` followed by `handleSubmit` sends `PUT /members/1` with a body that
holds the six form fields only, `emergencyContact` filled in with blanks, and
neither `memberId`, `status` nor `joinDate`: the record sent is not the member
record, and its serialisation is not the member's. -/
theorem edit_then_submit_changes_record :
    Members.startEdit Members.initial Scenario.marco = .ok Scenario.editingMarco ∧
    (Trace.fetchCalls (Members.handleSubmit Scenario.api Scenario.accepting
        Scenario.editingMarco []).2).head? =
      some ("https://api.gymcloud.com/members/1",
        .obj [("headers", .obj [("Content-Type", .str "application/json")]),
          ("method", .str "PUT"),
          ("body", .str ("\x7b\"firstName\":\"Marco\",\"lastName\":\"Rossi\"," ++
            "\"email\":\"marco.rossi@email.com\",\"phoneNumber\":\"+39 123 456 7890\"," ++
            "\"subscriptionType\":\"premium\"," ++
            "\"emergencyContact\":\x7b\"name\":\"\",\"phone\":\"\"\x7d\x7d"))]) ∧
    Scenario.editingMarco.formData.toJS ≠ Scenario.marco ∧
    JSON.stringify Scenario.editingMarco.formData.toJS ≠ JSON.stringify Scenario.marco := by
  refine ⟨rfl, rfl, ?_, ?_⟩
  · simp [Scenario.editingMarco, Scenario.marco, Members.startEdit, Members.editForm,
      Members.initial, MemberForm.toJS, JSVal.getProp, Record.get, Except.map, bind,
      Except.bind, pure, Except.pure]
  · have h : JSON.stringify Scenario.marco =
        .str ("\x7b\"memberId\":\"1\",\"firstName\":\"Marco\",\"lastName\":\"Rossi\"," ++
          "\"email\":\"marco.rossi@email.com\",\"phoneNumber\":\"+39 123 456 7890\"," ++
          "\"subscriptionType\":\"premium\",\"status\":\"active\"," ++
          "\"joinDate\":\"2024-01-15\"\x7d") := rfl
    have h' : JSON.stringify Scenario.editingMarco.formData.toJS =
        .str ("\x7b\"firstName\":\"Marco\",\"lastName\":\"Rossi\"," ++
            "\"email\":\"marco.rossi@email.com\",\"phoneNumber\":\"+39 123 456 7890\"," ++
            "\"subscriptionType\":\"premium\"," ++
            "\"emergencyContact\":\x7b\"name\":\"\",\"phone\":\"\"\x7d\x7d") := rfl
    rw [h, h']
    intro hEq
    injection hEq with hs
    exact absurd hs (by decide)

/-- C8, amended: for every member record `m`, state, trace and network,
`startEdit(m)` succeeds and a `handleSubmit` that follows it with no field
change sends `PUT /members/{m.memberId}` whose body is the serialisation of
the record of the six form fields copied from `m`: `firstName`, `lastName`,
`email`, `phoneNumber`, `subscriptionType`, and `emergencyContact`, which is
that of `m` when truthy and the blank contact otherwise. Properties of `m`
outside these six are not in the body. -/
theorem edit_then_submit_sends_form_fields (api : ApiService) (net : Backend)
    (s : MembersState) (tr : Trace) (m : Record) :
    ∃ s', Members.startEdit s (.obj m) = .ok s' ∧
      s'.editingMember = .obj m ∧
      ∃ init rest, Trace.fetchCalls (Members.handleSubmit api net s' tr).2 =
          Trace.fetchCalls tr ++
            (api.baseURL ++ ("/members/" ++ (Record.get m "memberId").toJSString), init)
              :: rest ∧
        fetchMethod init = "PUT" ∧
        fetchBody init = JSON.stringify
          (.obj [("firstName", Record.get m "firstName"),
                 ("lastName", Record.get m "lastName"),
                 ("email", Record.get m "email"),
                 ("phoneNumber", Record.get m "phoneNumber"),
                 ("subscriptionType", Record.get m "subscriptionType"),
                 ("emergencyContact", (Record.get m "emergencyContact").or
                    (.obj [("name", .str ""), ("phone", .str "")]))]) := by
  refine ⟨{ s with
      formData :=
        { firstName := Record.get m "firstName", lastName := Record.get m "lastName",
          email := Record.get m "email", phoneNumber := Record.get m "phoneNumber",
          subscriptionType := Record.get m "subscriptionType",
          emergencyContact := (Record.get m "emergencyContact").or
            (.obj [("name", .str ""), ("phone", .str "")]) },
      editingMember := .obj m, showForm := true }, rfl, rfl, ?_⟩
  exact Members.handleSubmit_first_call_editing api net _ tr m rfl

end GymCloud

/-- C9, as stated, fails: when the server answers the list request with 200
and the body `null`, the request succeeds with data `null`, reading
`data.members` throws inside `try`, and `loadMembers` sets the mock list, not
the empty list, and logs the error. -/
theorem loadMembers_null_data_sets_mock :
    (Scenario.api.getMembers Scenario.answeringNull [] []).1 = .ok .null ∧
    (GymCloud.Members.loadMembers Scenario.api Scenario.answeringNull
        GymCloud.Members.initial []).1.members = GymCloud.Members.mockMembers ∧
    (GymCloud.Members.loadMembers Scenario.api Scenario.answeringNull
        GymCloud.Members.initial []).1.members ≠ .arr [] ∧
    Trace.consoleErrors (GymCloud.Members.loadMembers Scenario.api Scenario.answeringNull
        GymCloud.Members.initial []).2 =
      [("Error loading members:",
        ⟨"TypeError", "Cannot read properties of null (reading 'members')"⟩)] := by
  refine ⟨rfl, rfl, ?_, rfl⟩
  intro h
  have h' : GymCloud.Members.mockMembers = .arr [] := h
  simp [GymCloud.Members.mockMembers] at h'

/-- C9, amended: a successful list load stores the API's records unmodified,
for every successful response data other than `null` (and `undefined`):
`Members.loadMembers` sets `members` to `data.members` itself when that is
truthy and to the empty list otherwise (absent or falsy), changes nothing else
but `loading`, which ends false, and logs nothing; `Workouts.loadWorkouts` does
the same with `data.workouts`; and for every ok response whose body parses to
`data`, `GymUsersApp.fetchUsers` sets `users` to `data` itself, leaves `error`
the empty string and ends with `loading` false. -/
theorem list_load_success_stores_data (api : GymCloud.ApiService) (net : Backend) :
    (∀ (s : GymCloud.MembersState) (tr : Trace) (data : JSVal) (tr' : Trace),
      api.getMembers net [] tr = (.ok data, tr') → data ≠ .null → data ≠ .undefined →
      ∃ ms, data.getProp "members" = .ok ms ∧
        GymCloud.Members.loadMembers api net s tr =
          ({ s with members := if ms.truthy then ms else .arr [], loading := false }, tr')) ∧
    (∀ (s : GymCloud.WorkoutsState) (tr : Trace) (data : JSVal) (tr' : Trace),
      api.getWorkouts net [] tr = (.ok data, tr') → data ≠ .null → data ≠ .undefined →
      ∃ ws, data.getProp "workouts" = .ok ws ∧
        GymCloud.Workouts.loadWorkouts api net s tr =
          ({ s with workouts := if ws.truthy then ws else .arr [], loading := false }, tr')) ∧
    (∀ (s : GymUsersApp.State) (tr : Trace) (response : Response) (data : JSVal),
      net (Trace.fetchCalls tr).length (GymUsersApp.API_BASE_URL ++ "/users") .undefined =
        .ok response →
      response.ok = true → response.json = .ok data →
      GymUsersApp.fetchUsers net s tr =
        ({ s with users := data, error := "", loading := false },
          tr ++ [Event.fetch (GymUsersApp.API_BASE_URL ++ "/users") .undefined])) := by
  refine ⟨?_, ?_, ?_⟩
  · intro s tr data tr' h hn hu
    cases data with
    | null => exact absurd rfl hn
    | undefined => exact absurd rfl hu
    | obj fields =>
      exact ⟨_, rfl, by simp [GymCloud.Members.loadMembers, h, Except.bind, JSVal.getProp,
        JSVal.or]⟩
    | bool b =>
      exact ⟨_, rfl, by simp [GymCloud.Members.loadMembers, h, Except.bind, JSVal.getProp,
        JSVal.or]⟩
    | num n =>
      exact ⟨_, rfl, by simp [GymCloud.Members.loadMembers, h, Except.bind, JSVal.getProp,
        JSVal.or]⟩
    | str t =>
      exact ⟨_, rfl, by simp [GymCloud.Members.loadMembers, h, Except.bind, JSVal.getProp,
        JSVal.or]⟩
    | arr xs =>
      exact ⟨_, rfl, by simp [GymCloud.Members.loadMembers, h, Except.bind, JSVal.getProp,
        JSVal.or]⟩
  · intro s tr data tr' h hn hu
    cases data with
    | null => exact absurd rfl hn
    | undefined => exact absurd rfl hu
    | obj fields =>
      exact ⟨_, rfl, by simp [GymCloud.Workouts.loadWorkouts, h, Except.bind, JSVal.getProp,
        JSVal.or]⟩
    | bool b =>
      exact ⟨_, rfl, by simp [GymCloud.Workouts.loadWorkouts, h, Except.bind, JSVal.getProp,
        JSVal.or]⟩
    | num n =>
      exact ⟨_, rfl, by simp [GymCloud.Workouts.loadWorkouts, h, Except.bind, JSVal.getProp,
        JSVal.or]⟩
    | str t =>
      exact ⟨_, rfl, by simp [GymCloud.Workouts.loadWorkouts, h, Except.bind, JSVal.getProp,
        JSVal.or]⟩
    | arr xs =>
      exact ⟨_, rfl, by simp [GymCloud.Workouts.loadWorkouts, h, Except.bind, JSVal.getProp,
        JSVal.or]⟩
  · intro s tr response data h hok hj
    simp [GymUsersApp.fetchUsers, GymUsersApp.fetchUsersTry, h, hok, hj]

/-- C9 amended, worked example: against a server that lists Marco Rossi under
`members` and `null` under `workouts`, `loadMembers` stores the list with
Marco Rossi, `loadWorkouts` stores the empty list, and `fetchUsers` stores the
whole body; each ends with `loading` false. -/
theorem list_load_success_stores_data_witness :
    (∃ ms, (JSVal.obj [("members", .arr [Scenario.marco]), ("workouts", .null)]).getProp
        "members" = .ok ms ∧
      GymCloud.Members.loadMembers Scenario.api Scenario.listing GymCloud.Members.initial [] =
        ({ GymCloud.Members.initial with
            members := if ms.truthy then ms else .arr [], loading := false },
          (Scenario.api.getMembers Scenario.listing [] []).2)) ∧
    (∃ ws, (JSVal.obj [("members", .arr [Scenario.marco]), ("workouts", .null)]).getProp
        "workouts" = .ok ws ∧
      GymCloud.Workouts.loadWorkouts Scenario.api Scenario.listing
          (GymCloud.Workouts.initial "2024-08-19") [] =
        ({ GymCloud.Workouts.initial "2024-08-19" with
            workouts := if ws.truthy then ws else .arr [], loading := false },
          (Scenario.api.getWorkouts Scenario.listing [] []).2)) ∧
    GymUsersApp.fetchUsers Scenario.listing GymUsersApp.initial [] =
      ({ GymUsersApp.initial with
          users := .obj [("members", .arr [Scenario.marco]), ("workouts", .null)],
          error := "", loading := false },
        [] ++ [Event.fetch (GymUsersApp.API_BASE_URL ++ "/users") .undefined]) :=
  ⟨(list_load_success_stores_data Scenario.api Scenario.listing).1
      GymCloud.Members.initial [] _ _ rfl
      (fun h => JSVal.noConfusion h) (fun h => JSVal.noConfusion h),
   (list_load_success_stores_data Scenario.api Scenario.listing).2.1
      (GymCloud.Workouts.initial "2024-08-19") [] _ _ rfl
      (fun h => JSVal.noConfusion h) (fun h => JSVal.noConfusion h),
   (list_load_success_stores_data Scenario.api Scenario.listing).2.2
      GymUsersApp.initial [] _ _ rfl rfl rfl⟩

namespace GymUsersApp

/-- C10, as stated, fails: when the server answers `POST /users` with 204 and
an empty body, the response is ok, yet `response.json()` throws, so
`createRandomUser` does not run `fetchUsers` (its only call of `fetch` is the
`POST`) and reports 'Errore nella creazione utente: ' with the parse error. -/
theorem createRandomUser_ok_without_body_skips_refresh :
    Scenario.noContent 0 (API_BASE_URL ++ "/users") createInit =
      .ok { ok := true, status := 204,
            json := .error ⟨"SyntaxError", "Unexpected end of JSON input"⟩ } ∧
    Trace.fetchCalls (createRandomUser Scenario.noContent Scenario.oneUser []).2 =
      [(API_BASE_URL ++ "/users", createInit)] ∧
    (createRandomUser Scenario.noContent Scenario.oneUser []).1.error =
      "Errore nella creazione utente: Unexpected end of JSON input" ∧
    ¬ (Trace.fetchCalls (createRandomUser Scenario.noContent Scenario.oneUser []).2).length =
      2 := by
  refine ⟨rfl, rfl, rfl, ?_⟩
  decide

/-- C10, amended: `createRandomUser` refreshes the list only after a successful
creation, which needs an ok response whose body parses. For every state, trace
and network: if the response of `POST /users` is ok and its body parses, then
`fetchUsers` is run exactly once afterwards (the run is `fetchUsers` applied to
the state with `creating` true and `error` empty, and its calls of `fetch` are
the `POST` and then one `GET /users`); if `fetch` rejects, the response is not
ok, or its body does not parse, then `fetchUsers` is not run, `users` is
unchanged and `error` is 'Errore nella creazione utente: ' followed by the
error message; in every case `creating` is false at the end. -/
theorem createRandomUser_refreshes_after_parsed_ok (net : Backend) (s : State) (tr : Trace) :
    (match net (Trace.fetchCalls tr).length (API_BASE_URL ++ "/users") createInit with
     | .error e =>
       createRandomUser net s tr =
         ({ s with error := "Errore nella creazione utente: " ++ e.message,
                   creating := false },
           tr ++ [Event.fetch (API_BASE_URL ++ "/users") createInit])
     | .ok response =>
       if response.ok = true then
         match response.json with
         | .ok _ =>
           createRandomUser net s tr =
             ({ (fetchUsers net { s with creating := true, error := "" }
                   (tr ++ [Event.fetch (API_BASE_URL ++ "/users") createInit])).1 with
                 creating := false },
               (fetchUsers net { s with creating := true, error := "" }
                   (tr ++ [Event.fetch (API_BASE_URL ++ "/users") createInit])).2) ∧
           Trace.fetchCalls (createRandomUser net s tr).2 =
             Trace.fetchCalls tr ++
               [(API_BASE_URL ++ "/users", createInit), (API_BASE_URL ++ "/users", .undefined)]
         | .error e =>
           createRandomUser net s tr =
             ({ s with error := "Errore nella creazione utente: " ++ e.message,
                       creating := false },
               tr ++ [Event.fetch (API_BASE_URL ++ "/users") createInit])
       else
         createRandomUser net s tr =
           ({ s with error := "Errore nella creazione utente: Failed to create user",
                     creating := false },
             tr ++ [Event.fetch (API_BASE_URL ++ "/users") createInit])) ∧
    (createRandomUser net s tr).1.creating = false := by
  refine ⟨?_, ?_⟩
  · cases h : net (Trace.fetchCalls tr).length (API_BASE_URL ++ "/users") createInit with
    | error e => simp [createRandomUser, createTry, h]
    | ok response =>
      obtain ⟨ok, status, json⟩ := response
      cases ok with
      | false => simp [createRandomUser, createTry, h]
      | true =>
        cases json with
        | error e => simp [createRandomUser, createTry, h]
        | ok data =>
          simp [createRandomUser, createTry, h, fetchUsers_fetchCalls,
            Trace.fetchCalls_append, Trace.fetchCalls]
  · simp [createRandomUser]

end GymUsersApp

namespace GymCloud

/-- C11, what the code does: when the options carry a `headers` property, the
`...options` that follows the merged `headers` in the object literal of
`request` puts the caller's headers object in place of the merged one. For
every method and every headers object `hs` the init object given to `fetch` has
`headers` equal to `hs` itself, so 'Content-Type' is there only if `hs`
supplies it; with the one header `Authorization` the init object has no
'Content-Type' at all. Without a `headers` property the headers are the default
'Content-Type': 'application/json'. -/
theorem request_headers_replaced_by_options (api : ApiService) (net : Backend)
    (endpoint m : String) (hs : Record) (tr : Trace) :
    Trace.fetchCalls
        (api.request net endpoint [("method", .str m), ("headers", .obj hs)] tr).2 =
      Trace.fetchCalls tr ++
        [(api.baseURL ++ endpoint, .obj [("headers", .obj hs), ("method", .str m)])] ∧
    fetchHeaders (.obj (ApiService.requestConfig [("method", .str m), ("headers", .obj hs)])) =
      .obj hs ∧
    fetchHeaders (.obj (ApiService.requestConfig Scenario.authorised)) =
      .obj [("Authorization", .str "Bearer t")] ∧
    (fetchHeaders (.obj (ApiService.requestConfig Scenario.authorised))).getProp "Content-Type" =
      .ok .undefined ∧
    fetchHeaders (.obj (ApiService.requestConfig [("method", .str m)])) =
      .obj [("Content-Type", .str "application/json")] := by
  have hc : ApiService.requestConfig [("method", .str m), ("headers", .obj hs)] =
      [("headers", .obj hs), ("method", .str m)] := by
    simp [ApiService.requestConfig, Record.spread, Record.set, Record.get, JSVal.spreadProps,
      JSVal.truthy]
  refine ⟨?_, ?_, rfl, rfl, rfl⟩
  · rw [ApiService.request_fetchCalls, hc]
  · rw [hc]; rfl

end GymCloud

namespace GymCloud

/-- C12, as stated, fails: when the server answers 500 with the body `null`,
reading `data.error` throws, and `request` rejects with that `TypeError`, not
with an `Error` whose message is 'HTTP error! status: 500'; when the server
answers 422 with `error: 42`, the message of the `Error` is the string '42',
the string conversion of `data.error`, not the number; and when the server
answers 400 with an `error` that is an object with an own property `toString`,
`new Error(data.error)` throws a `TypeError`, and that is what `request`
rejects with. -/
theorem request_error_message_not_as_stated :
    (Scenario.api.request Scenario.refusingNull "/members" [] []).1 =
      .error ⟨"TypeError", "Cannot read properties of null (reading 'error')"⟩ ∧
    (Scenario.api.request Scenario.refusingNull "/members" [] []).1 ≠
      .error ⟨"Error", "HTTP error! status: 500"⟩ ∧
    (Scenario.api.request Scenario.refusingCode "/members" [] []).1 =
      .error ⟨"Error", "42"⟩ ∧
    (Scenario.api.request Scenario.refusingOpaque "/members" [] []).1 =
      .error ⟨"TypeError", "Cannot convert object to primitive value"⟩ := by
  refine ⟨rfl, ?_, rfl, rfl⟩
  intro h
  have h' : (Except.error ⟨"TypeError", "Cannot read properties of null (reading 'error')"⟩ :
      Except JSError JSVal) = .error ⟨"Error", "HTTP error! status: 500"⟩ := h
  injection h' with he
  exact absurd he (by decide)

/-- C12, amended: `request` returns or throws according to `response.ok`. For
every endpoint, options, trace and network, with the response whose body
parses to `data`: if `response.ok` is true the result is `data` unchanged; if
`response.ok` is false and `data` is not `null` (nor `undefined`) it throws,
when `data.error` is truthy, an `Error` whose message is `data.error`
converted to a string (so `data.error` itself when it is a non-empty string),
or the `TypeError` of that conversion when it throws (as for an object with an
own property `toString`), and when `data.error` is not truthy an `Error` with
the message 'HTTP error! status: ' followed by `response.status`; and it
throws if and only if `fetch` rejects, the body fails to parse, or
`response.ok` is false. -/
theorem request_result_follows_response (api : ApiService) (net : Backend)
    (endpoint : String) (options : Record) (tr : Trace) :
    (∀ (response : Response) (data : JSVal),
      net (Trace.fetchCalls tr).length (api.baseURL ++ endpoint)
        (.obj (ApiService.requestConfig options)) = .ok response →
      response.json = .ok data → response.ok = true →
      (api.request net endpoint options tr).1 = .ok data) ∧
    (∀ (response : Response) (data : JSVal),
      net (Trace.fetchCalls tr).length (api.baseURL ++ endpoint)
        (.obj (ApiService.requestConfig options)) = .ok response →
      response.json = .ok data → response.ok = false →
      data ≠ .null → data ≠ .undefined →
      ∃ err, data.getProp "error" = .ok err ∧
        (api.request net endpoint options tr).1 =
          if err.truthy then
            match err.toStringOrThrow with
            | .ok message => .error ⟨"Error", message⟩
            | .error e => .error e
          else .error ⟨"Error", "HTTP error! status: " ++ toString response.status⟩) ∧
    (∀ (response : Response) (fields : Record) (msg : String),
      net (Trace.fetchCalls tr).length (api.baseURL ++ endpoint)
        (.obj (ApiService.requestConfig options)) = .ok response →
      response.json = .ok (.obj fields) → response.ok = false →
      Record.get fields "error" = .str msg → msg ≠ "" →
      (api.request net endpoint options tr).1 = .error ⟨"Error", msg⟩) ∧
    (∀ (response : Response) (fields inner : Record),
      net (Trace.fetchCalls tr).length (api.baseURL ++ endpoint)
        (.obj (ApiService.requestConfig options)) = .ok response →
      response.json = .ok (.obj fields) → response.ok = false →
      Record.get fields "error" = .obj inner →
      inner.any (fun p => p.1 == "toString") = true →
      (api.request net endpoint options tr).1 =
        .error ⟨"TypeError", "Cannot convert object to primitive value"⟩) ∧
    ((∃ e, (api.request net endpoint options tr).1 = .error e) ↔
      ((∃ e, net (Trace.fetchCalls tr).length (api.baseURL ++ endpoint)
          (.obj (ApiService.requestConfig options)) = .error e) ∨
       ∃ response, net (Trace.fetchCalls tr).length (api.baseURL ++ endpoint)
          (.obj (ApiService.requestConfig options)) = .ok response ∧
         ((∃ e, response.json = .error e) ∨ response.ok = false))) := by
  have hres : (api.request net endpoint options tr).1 =
      ApiService.requestTry (net (Trace.fetchCalls tr).length (api.baseURL ++ endpoint)
        (.obj (ApiService.requestConfig options))) := by
    rw [ApiService.request_eq]
    cases ApiService.requestTry (net (Trace.fetchCalls tr).length (api.baseURL ++ endpoint)
      (.obj (ApiService.requestConfig options))) <;> rfl
  rw [hres]
  refine ⟨?_, ?_, ?_, ?_, ?_⟩
  · intro response data h hj hok
    simp [ApiService.requestTry, h, hj, hok]
  · intro response data h hj hok hn hu
    obtain ⟨ok, status, json⟩ := response
    simp only at hj hok
    subst hj hok
    rw [h]
    cases data with
    | null => exact absurd rfl hn
    | undefined => exact absurd rfl hu
    | obj fields => exact ⟨_, rfl, ApiService.requestTry_refused status _ _ rfl⟩
    | bool b => exact ⟨_, rfl, ApiService.requestTry_refused status _ _ rfl⟩
    | num n => exact ⟨_, rfl, ApiService.requestTry_refused status _ _ rfl⟩
    | str t => exact ⟨_, rfl, ApiService.requestTry_refused status _ _ rfl⟩
    | arr xs => exact ⟨_, rfl, ApiService.requestTry_refused status _ _ rfl⟩
  · intro response fields msg h hj hok hg hm
    obtain ⟨ok, status, json⟩ := response
    simp only at hj hok
    subst hj hok
    rw [h, ApiService.requestTry_refused status (.obj fields) (.str msg)
      (by simp [JSVal.getProp, hg])]
    simp [JSVal.truthy, hm, JSVal.toStringOrThrow]
  · intro response fields inner h hj hok hg hany
    obtain ⟨ok, status, json⟩ := response
    simp only at hj hok
    subst hj hok
    rw [h, ApiService.requestTry_refused status (.obj fields) (.obj inner)
      (by simp [JSVal.getProp, hg])]
    simp only [JSVal.truthy, JSVal.toStringOrThrow, hany, if_true]
    rfl
  · cases h : net (Trace.fetchCalls tr).length (api.baseURL ++ endpoint)
        (.obj (ApiService.requestConfig options)) with
    | error e => simp [ApiService.requestTry]
    | ok response =>
      obtain ⟨ok, status, json⟩ := response
      cases json with
      | error e => simp [ApiService.requestTry]
      | ok data =>
        cases ok with
        | true => simp [ApiService.requestTry]
        | false =>
          cases hp : data.getProp "error" with
          | error e => simp [ApiService.requestTry, hp]
          | ok err =>
            cases hc : (err.or
                (.str ("HTTP error! status: " ++ toString status))).toStringOrThrow <;>
              simp [ApiService.requestTry, hp, hc]

/-- C12 amended, worked example: a 200 answer gives its body back; a 404 answer
with the body `\x7b\x7d` throws 'HTTP error! status: 404'; a 500 answer with
`error: "boom"` throws 'boom'; a 400 answer whose `error` is an object with an
own property `toString` throws the `TypeError` of the conversion. -/
theorem request_result_follows_response_witness :
    (Scenario.api.request Scenario.accepting "/members" [] []).1 =
      .ok (.obj [("members", .arr []), ("workouts", .arr [])]) ∧
    (∃ err, (JSVal.obj []).getProp "error" = .ok err ∧
      (Scenario.api.request Scenario.refusingBare "/members" [] []).1 =
        if err.truthy then
          match err.toStringOrThrow with
          | .ok message => .error ⟨"Error", message⟩
          | .error e => .error e
        else .error ⟨"Error", "HTTP error! status: " ++ toString 404⟩) ∧
    (Scenario.api.request Scenario.refusing "/members" [] []).1 = .error ⟨"Error", "boom"⟩ ∧
    (Scenario.api.request Scenario.refusingOpaque "/members" [] []).1 =
      .error ⟨"TypeError", "Cannot convert object to primitive value"⟩ :=
  ⟨(request_result_follows_response Scenario.api Scenario.accepting "/members" [] []).1
      _ _ rfl rfl rfl,
   (request_result_follows_response Scenario.api Scenario.refusingBare "/members" [] []).2.1
      _ _ rfl rfl rfl (fun h => JSVal.noConfusion h) (fun h => JSVal.noConfusion h),
   (request_result_follows_response Scenario.api Scenario.refusing "/members" [] []).2.2.1
      _ _ "boom" rfl rfl rfl rfl (by decide),
   (request_result_follows_response Scenario.api Scenario.refusingOpaque "/members" [] []).2.2.2.1
      _ _ [("toString", .num 1)] rfl rfl rfl rfl rfl⟩

end GymCloud

namespace GymCloud

/-- C13: the exercise list of the workout form is never empty. Starting from
the initial state of `Workouts` and applying any sequence of actions, each one
offered in the state it is applied to (`addExercise`, `updateExercise` on an
existing index, `resetForm`, `removeExercise` on an existing index while the
list has more than one exercise, and also opening the form, typing in the other
inputs and submitting, against any network), `formData.exercises` has length
at least 1 in the state reached. -/
theorem exercises_never_empty (api : ApiService) (net : Backend) (today : String)
    (actions : List Workouts.Action) (st : WorkoutsState × Trace)
    (hrun : Workouts.run api net (Workouts.initial today, []) actions = some st) :
    1 ≤ st.1.formData.exercises.length :=
  Workouts.run_keeps_exercises api net actions (Workouts.initial today, []) st
    (by simp [Workouts.initial, Workouts.blankForm]) hrun

/-- C13, worked example: opening the form, adding a row, removing the first
row, typing a name in the remaining row, submitting against a server that
accepts everything and resetting are all offered in turn, and leave one row. -/
theorem exercises_never_empty_witness :
    ∃ st, Workouts.run Scenario.api Scenario.accepting (Workouts.initial "2024-08-19", [])
        [.openForm, .addExercise, .removeExercise 0, .updateExercise 0 .name "Squat",
         .changeField .memberId "1", .submit "2024-08-20", .resetForm "2024-08-20"] = some st ∧
      1 ≤ st.1.formData.exercises.length :=
  ⟨_, rfl,
    exercises_never_empty Scenario.api Scenario.accepting "2024-08-19"
      [.openForm, .addExercise, .removeExercise 0, .updateExercise 0 .name "Squat",
       .changeField .memberId "1", .submit "2024-08-20", .resetForm "2024-08-20"] _ rfl⟩

/-- C14: `Workouts.removeExercise(index)` removes exactly the exercise at that
position. For every state and index the new list is the old one without its
element at `index` (the elements before it, then the elements after it, in
their order); for an index below the length the length decreases by one; for
an index outside the list the list is unchanged; every other field of
`formData` (`memberId`, `date`, `duration`, `caloriesBurned`, `notes`) and the
rest of the state are unchanged; and `removeExercise(length)` after
`addExercise` gives back the state before `addExercise`. -/
theorem removeExercise_removes_that_row (s : WorkoutsState) (index : Nat) :
    (Workouts.removeExercise s index).formData.exercises =
      s.formData.exercises.take index ++ s.formData.exercises.drop (index + 1) ∧
    (index < s.formData.exercises.length →
      (Workouts.removeExercise s index).formData.exercises.length + 1 =
        s.formData.exercises.length) ∧
    (s.formData.exercises.length ≤ index →
      (Workouts.removeExercise s index).formData.exercises = s.formData.exercises) ∧
    ((Workouts.removeExercise s index).formData.memberId = s.formData.memberId ∧
     (Workouts.removeExercise s index).formData.date = s.formData.date ∧
     (Workouts.removeExercise s index).formData.duration = s.formData.duration ∧
     (Workouts.removeExercise s index).formData.caloriesBurned = s.formData.caloriesBurned ∧
     (Workouts.removeExercise s index).formData.notes = s.formData.notes) ∧
    ((Workouts.removeExercise s index).workouts = s.workouts ∧
     (Workouts.removeExercise s index).members = s.members ∧
     (Workouts.removeExercise s index).loading = s.loading ∧
     (Workouts.removeExercise s index).showForm = s.showForm) ∧
    Workouts.removeExercise (Workouts.addExercise s) s.formData.exercises.length = s := by
  refine ⟨?_, ?_, ?_, ⟨rfl, rfl, rfl, rfl, rfl⟩, ⟨rfl, rfl, rfl, rfl⟩, ?_⟩
  · rw [Workouts.removeExercise_exercises, List.eraseIdx_eq_take_drop_succ]
  · intro h
    rw [Workouts.removeExercise_exercises, List.length_eraseIdx, if_pos h]
    omega
  · intro h
    rw [Workouts.removeExercise_exercises, List.eraseIdx_of_length_le h]
  · obtain ⟨workouts, members, loading, showForm, formData⟩ := s
    obtain ⟨memberId, date, exercises, duration, caloriesBurned, notes⟩ := formData
    simp [Workouts.removeExercise, Workouts.addExercise, Workouts.filterWithIndex_ne,
      List.eraseIdx_append_of_length_le]

/-- C14, worked example: from a form with the rows Squat and Panca Piana,
removing index 0 leaves one row, removing index 5 leaves both, and removing
index 2 after adding a row gives the form back. -/
theorem removeExercise_removes_that_row_witness :
    (Workouts.removeExercise Scenario.twoRows 0).formData.exercises.length + 1 = 2 ∧
    (Workouts.removeExercise Scenario.twoRows 5).formData.exercises =
      Scenario.twoRows.formData.exercises ∧
    Workouts.removeExercise (Workouts.addExercise Scenario.twoRows) 2 = Scenario.twoRows :=
  ⟨(removeExercise_removes_that_row Scenario.twoRows 0).2.1 (by decide),
   (removeExercise_removes_that_row Scenario.twoRows 5).2.2.1 (by decide),
   (removeExercise_removes_that_row Scenario.twoRows 2).2.2.2.2.2⟩

/-- C15: `Members.resetForm` restores the initial form state from any state.
For every state, after `resetForm` the form is the blank record the component
starts with (empty `firstName`, `lastName`, `email`, `phoneNumber`,
`subscriptionType` 'basic', `emergencyContact` with empty `name` and `phone`),
`editingMember` is `null` and `showForm` is false, `members` and `loading`
being untouched; `resetForm` is idempotent; and for every member `m`,
`startEdit(m)` followed by `resetForm` gives the same state as `resetForm`
alone (`startEdit` succeeds on every member record, and sets no state when it
throws on `null` or `undefined`). -/
theorem resetForm_restores_initial_form (s : MembersState) (m : JSVal) (fields : Record) :
    (Members.resetForm s).formData = Members.initial.formData ∧
    (Members.resetForm s).formData.toJS =
      .obj [("firstName", .str ""), ("lastName", .str ""), ("email", .str ""),
        ("phoneNumber", .str ""), ("subscriptionType", .str "basic"),
        ("emergencyContact", .obj [("name", .str ""), ("phone", .str "")])] ∧
    (Members.resetForm s).editingMember = .null ∧
    (Members.resetForm s).showForm = false ∧
    (Members.resetForm s).members = s.members ∧
    (Members.resetForm s).loading = s.loading ∧
    Members.resetForm (Members.resetForm s) = Members.resetForm s ∧
    Members.resetForm
        (match Members.startEdit s m with
         | .ok s' => s'
         | .error _ => s) = Members.resetForm s ∧
    (∃ s', Members.startEdit s (.obj fields) = .ok s' ∧
      Members.resetForm s' = Members.resetForm s) := by
  refine ⟨rfl, rfl, rfl, rfl, rfl, rfl, rfl, ?_, ?_⟩
  · cases h : Members.editForm m with
    | error e => simp [Members.startEdit, h, Except.map]
    | ok form => simp [Members.startEdit, h, Except.map, Members.resetForm]
  · exact ⟨_, rfl, rfl⟩

end GymCloud
